import Mathlib

/-!
Verification of the cross-source reconciliation engine
(schema_compare.py, count_check.py, duplicate_check.py, null_check.py,
data_compare.py).

The Python code is shallowly embedded: pure string manipulation is
translated to functions over `List Char` (wrapped into `String` at the
boundary), database fetches become explicit function parameters returning
`Except String α` (an exception is the `.error` case carrying the message
produced by `str(e)`), pandas dataframes become lists of records, and
Python `int` becomes `Int`.  Character-level operations (lower-casing,
whitespace, the character classes of the regexes involved) are modelled on
the ASCII range, which is the range the regular expressions of the source
constrain the output to.
-/

namespace UTA

/-- Characters matching the regex class `[a-z0-9_]` kept by the final
re.sub of normalize_name (ASCII codes: a..z = 97..122, 0..9 = 48..57,
_ = 95). -/
def isAllowedChar (c : Char) : Bool :=
  decide (97 ≤ c.toNat ∧ c.toNat ≤ 122) ||
  decide (48 ≤ c.toNat ∧ c.toNat ≤ 57) ||
  c == '_'

/-- ASCII whitespace: the characters stripped by str.strip with no
arguments and matched by the regex class backslash-s (space, tab, newline,
carriage return, vertical tab, form feed). -/
def isPyWs (c : Char) : Bool :=
  c == ' ' || c == '\t' || c == '\n' || c == '\r' ||
  c == '\x0b' || c == '\x0c'

/-- str.lower restricted to ASCII letters (A..Z = 65..90). -/
def lowerAscii (c : Char) : Char :=
  if 65 ≤ c.toNat ∧ c.toNat ≤ 90 then Char.ofNat (c.toNat + 32) else c

/-- The per-character effect of replacing each space with an
underscore. -/
def replSpace (c : Char) : Char := if c == ' ' then '_' else c

/-- The quote characters stripped off both ends by the strip call of the
data_compare normalize_name: double quote, square brackets, backtick. -/
def isQuoteChar (c : Char) : Bool :=
  c == '"' || c == '[' || c == ']' || c == '`'

/-- The last dot-separated segment: the maximal suffix containing no
dot. -/
def afterLastDot (l : List Char) : List Char :=
  (l.reverse.takeWhile (fun c => !(c == '.'))).reverse

/-- str.strip with no arguments: drop ASCII whitespace from both
ends. -/
def trimWs (l : List Char) : List Char :=
  ((l.dropWhile isPyWs).reverse.dropWhile isPyWs).reverse

/-- strip for the quote-character set: drop those characters from both
ends. -/
def stripQuotes (l : List Char) : List Char :=
  ((l.dropWhile isQuoteChar).reverse.dropWhile isQuoteChar).reverse

/-- The shared normalization pipeline of both normalize_name methods:
keep the last dot-separated segment, lower-case, strip whitespace, turn
spaces into underscores, then delete every character outside
`[a-z0-9_]`. -/
def normalizeCore (l : List Char) : List Char :=
  ((trimWs ((afterLastDot l).map lowerAscii)).map replSpace).filter isAllowedChar

namespace SchemaCompare

/-- `SchemaComparator.normalize_name` (schema_compare.py, lines 46-52). -/
def normalize_name (s : String) : String :=
  ⟨UTA.normalizeCore s.data⟩

end SchemaCompare

namespace DataCompare

/-- `DataComparator.normalize_name` (data_compare.py, lines 35-43): like the
schema variant but first strips surrounding quote characters. -/
def normalize_name (s : String) : String :=
  ⟨UTA.normalizeCore (UTA.stripQuotes s.data)⟩

end DataCompare


/- ## Generic list lemmas used by the fixed-point arguments -/

theorem takeWhile_eq_self_of {p : Char → Bool} :
    ∀ {l : List Char}, (∀ c ∈ l, p c = true) → l.takeWhile p = l
  | [], _ => rfl
  | a :: as, h => by
    rw [List.takeWhile_cons, if_pos (h a (List.mem_cons_self a as))]
    exact congrArg (a :: ·) (takeWhile_eq_self_of fun c hc => h c (List.mem_cons_of_mem a hc))

theorem dropWhile_eq_self_of {p : Char → Bool} :
    ∀ {l : List Char}, (∀ c ∈ l, p c = false) → l.dropWhile p = l
  | [], _ => rfl
  | a :: as, h => by
    rw [List.dropWhile_cons, if_neg]
    simp [h a (List.mem_cons_self a as)]

theorem map_eq_self_of {f : Char → Char} {l : List Char}
    (h : ∀ c ∈ l, f c = c) : l.map f = l := by
  rw [List.map_congr_left h]
  exact List.map_id' l

/- ## Facts about characters in the canonical class [a-z0-9_] -/

theorem beq_char_false {c d : Char} (h : c.toNat ≠ d.toNat) : (c == d) = false := by
  cases hcd : c == d with
  | false => rfl
  | true => exact ((h (congrArg Char.toNat (eq_of_beq hcd))).elim)

theorem allowed_char_range {c : Char} (h : isAllowedChar c = true) :
    (97 ≤ c.toNat ∧ c.toNat ≤ 122) ∨ (48 ≤ c.toNat ∧ c.toNat ≤ 57) ∨ c.toNat = 95 := by
  simp only [isAllowedChar, Bool.or_eq_true, decide_eq_true_eq, beq_iff_eq] at h
  rcases h with (h | h) | h
  · exact Or.inl h
  · exact Or.inr (Or.inl h)
  · exact Or.inr (Or.inr (by rw [h]; decide))

/-- Every character already in the canonical class `[a-z0-9_]` is left
unchanged by each stage of the normalization pipeline. -/
theorem allowed_char_facts {c : Char} (h : isAllowedChar c = true) :
    lowerAscii c = c ∧ isPyWs c = false ∧ replSpace c = c ∧
    (c == '.') = false ∧ isQuoteChar c = false := by
  have hr := allowed_char_range h
  have ht : (9:ℕ) = Char.toNat '\t' := by decide
  have hn : (10:ℕ) = Char.toNat '\n' := by decide
  have hv : (11:ℕ) = Char.toNat '\x0b' := by decide
  have hf : (12:ℕ) = Char.toNat '\x0c' := by decide
  have hcr : (13:ℕ) = Char.toNat '\r' := by decide
  have hsp : (32:ℕ) = Char.toNat ' ' := by decide
  have hdot : (46:ℕ) = Char.toNat '.' := by decide
  have hdq : (34:ℕ) = Char.toNat '"' := by decide
  have hlb : (91:ℕ) = Char.toNat '[' := by decide
  have hrb : (93:ℕ) = Char.toNat ']' := by decide
  have hbt : (96:ℕ) = Char.toNat '`' := by decide
  refine ⟨?_, ?_, ?_, ?_, ?_⟩
  · unfold lowerAscii
    rw [if_neg]
    omega
  · unfold isPyWs
    rw [beq_char_false (by rw [← hsp]; omega), beq_char_false (by rw [← ht]; omega),
        beq_char_false (by rw [← hn]; omega), beq_char_false (by rw [← hcr]; omega),
        beq_char_false (by rw [← hv]; omega), beq_char_false (by rw [← hf]; omega)]
    rfl
  · unfold replSpace
    rw [if_neg]
    rw [beq_char_false (by rw [← hsp]; omega)]
    simp
  · exact beq_char_false (by rw [← hdot]; omega)
  · unfold isQuoteChar
    rw [beq_char_false (by rw [← hdq]; omega), beq_char_false (by rw [← hlb]; omega),
        beq_char_false (by rw [← hrb]; omega), beq_char_false (by rw [← hbt]; omega)]
    rfl

/- ## Fixed points of the normalization pipeline -/

theorem normalizeCore_mem_allowed {l : List Char} {c : Char}
    (hc : c ∈ normalizeCore l) : isAllowedChar c = true :=
  (List.mem_filter.mp hc).2

theorem afterLastDot_eq_self_of {l : List Char}
    (h : ∀ c ∈ l, isAllowedChar c = true) : afterLastDot l = l := by
  unfold afterLastDot
  rw [takeWhile_eq_self_of, List.reverse_reverse]
  intro c hc
  rw [(allowed_char_facts (h c (List.mem_reverse.mp hc))).2.2.2.1]
  rfl

theorem trimWs_eq_self_of {l : List Char}
    (h : ∀ c ∈ l, isAllowedChar c = true) : trimWs l = l := by
  unfold trimWs
  rw [dropWhile_eq_self_of (fun c hc => (allowed_char_facts (h c hc)).2.1),
      dropWhile_eq_self_of, List.reverse_reverse]
  intro c hc
  exact (allowed_char_facts (h c (List.mem_reverse.mp hc))).2.1

theorem stripQuotes_eq_self_of {l : List Char}
    (h : ∀ c ∈ l, isAllowedChar c = true) : stripQuotes l = l := by
  unfold stripQuotes
  rw [dropWhile_eq_self_of (fun c hc => (allowed_char_facts (h c hc)).2.2.2.2),
      dropWhile_eq_self_of, List.reverse_reverse]
  intro c hc
  exact (allowed_char_facts (h c (List.mem_reverse.mp hc))).2.2.2.2

theorem normalizeCore_eq_self_of {l : List Char}
    (h : ∀ c ∈ l, isAllowedChar c = true) : normalizeCore l = l := by
  unfold normalizeCore
  rw [afterLastDot_eq_self_of h,
      map_eq_self_of (fun c hc => (allowed_char_facts (h c hc)).1),
      trimWs_eq_self_of h,
      map_eq_self_of (fun c hc => (allowed_char_facts (h c hc)).2.2.1),
      List.filter_eq_self.mpr h]

/-- C1: for every string, both identifier normalizers
(SchemaComparator.normalize_name and DataComparator.normalize_name) are
idempotent, and their output contains only characters of the class
`[a-z0-9_]`.  Totality over strings is inherent in the embedding; the
Python coercion of non-string input via str happens before this
pipeline. -/
theorem c1_normalize_name_idempotent_charset (s : String) :
    SchemaCompare.normalize_name (SchemaCompare.normalize_name s) =
      SchemaCompare.normalize_name s ∧
    DataCompare.normalize_name (DataCompare.normalize_name s) =
      DataCompare.normalize_name s ∧
    (∀ c ∈ (SchemaCompare.normalize_name s).data, isAllowedChar c = true) ∧
    (∀ c ∈ (DataCompare.normalize_name s).data, isAllowedChar c = true) := by
  refine ⟨?_, ?_, ?_, ?_⟩
  · show (⟨normalizeCore (normalizeCore s.data)⟩ : String) = ⟨normalizeCore s.data⟩
    exact congrArg String.mk
      (normalizeCore_eq_self_of fun c hc => normalizeCore_mem_allowed hc)
  · show (⟨normalizeCore (stripQuotes (normalizeCore (stripQuotes s.data)))⟩ : String) =
      ⟨normalizeCore (stripQuotes s.data)⟩
    rw [stripQuotes_eq_self_of fun c hc => normalizeCore_mem_allowed hc]
    exact congrArg String.mk
      (normalizeCore_eq_self_of fun c hc => normalizeCore_mem_allowed hc)
  · exact fun c hc => normalizeCore_mem_allowed hc
  · exact fun c hc => normalizeCore_mem_allowed hc

/-- C1 witness: concrete evaluation of both normalizers together with the
idempotence property applied at those inputs. -/
theorem c1_normalize_name_idempotent_charset_witness :
    SchemaCompare.normalize_name "Sales.Order ID#" = "order_id" ∧
    SchemaCompare.normalize_name (SchemaCompare.normalize_name "Sales.Order ID#") =
      SchemaCompare.normalize_name "Sales.Order ID#" ∧
    DataCompare.normalize_name "[dbo].[Order ID]" = "order_id" ∧
    DataCompare.normalize_name (DataCompare.normalize_name "[dbo].[Order ID]") =
      DataCompare.normalize_name "[dbo].[Order ID]" :=
  ⟨by decide,
   (c1_normalize_name_idempotent_charset "Sales.Order ID#").1,
   by decide,
   (c1_normalize_name_idempotent_charset "[dbo].[Order ID]").2.1⟩


/- ## Type normalization (SchemaComparator.normalize_data_type) -/

namespace SchemaCompare

/-- `SchemaComparator.DATA_TYPE_MAPPING` (schema_compare.py, lines 21-44).
Each key is a literal regular expression, so re.fullmatch on it is
full-string equality. -/
def DATA_TYPE_MAPPING : List (String × String) :=
  [("nvarchar", "varchar"),
   ("string", "varchar"),
   ("nchar", "varchar"),
   ("char", "varchar"),
   ("text", "varchar"),
   ("int", "integer"),
   ("bigint", "integer"),
   ("smallint", "integer"),
   ("tinyint", "integer"),
   ("datetime", "timestamp"),
   ("datetime2", "timestamp"),
   ("date", "date"),
   ("time", "time"),
   ("float", "float"),
   ("real", "float"),
   ("bit", "boolean"),
   ("binary", "binary"),
   ("varbinary", "binary"),
   ("uniqueidentifier", "varchar"),
   ("money", "decimal(19,4)"),
   ("smalldatetime", "timestamp"),
   ("uuid", "varchar")]

end SchemaCompare

/-- The effect of replacing, left to right and without overlap, every
occurrence of the substring numeric by decimal (str.replace). -/
def replaceNumeric (l : List Char) : List Char :=
  match l with
  | [] => []
  | c :: cs =>
    if "numeric".data.isPrefixOf (c :: cs) then
      "decimal".data ++ replaceNumeric (cs.drop 6)
    else
      c :: replaceNumeric cs
termination_by l.length
decreasing_by
  · simp only [List.length_cons]
    have := List.length_drop 6 cs
    omega
  · simp

/-- The re.sub deleting every whitespace character. -/
def removeWsAll (l : List Char) : List Char :=
  l.filter (fun c => !(isPyWs c))

namespace SchemaCompare

/-- `SchemaComparator.normalize_data_type` (schema_compare.py, lines
54-67), on the character list of the input, parameterized by the
equivalence table so that the precedence of the decimal branch over the
table lookup can be stated.  The repeated subterm
`trimWs (l.map lowerAscii)` is the lowered and stripped type token. -/
def normalize_data_type_core (m : List (String × String)) (l : List Char) :
    List Char :=
  if "decimal".data.isPrefixOf (trimWs (l.map lowerAscii)) ||
     "numeric".data.isPrefixOf (trimWs (l.map lowerAscii)) then
    removeWsAll (replaceNumeric (trimWs (l.map lowerAscii)))
  else
    match m.find? (fun p => p.1.data == trimWs (l.map lowerAscii)) with
    | some p => p.2.data
    | none => (trimWs (l.map lowerAscii)).takeWhile (fun c => !(c == '('))

/-- `SchemaComparator.normalize_data_type` on strings, with the table of
the source. -/
def normalize_data_type (s : String) : String :=
  ⟨normalize_data_type_core DATA_TYPE_MAPPING s.data⟩

end SchemaCompare

/-- The characters that can occur in a parenthesized precision/scale
suffix: parentheses, comma, whitespace, digits. -/
def isPrecScaleChar (c : Char) : Bool :=
  c == '(' || c == ')' || c == ',' || isPyWs c ||
  decide (48 ≤ c.toNat ∧ c.toNat ≤ 57)

theorem precScaleChar_ne_n {c : Char} (h : isPrecScaleChar c = true) :
    c ≠ 'n' := by
  intro he
  rw [he] at h
  exact absurd h (by decide)

theorem isPrefixOf_append (l r : List Char) : l.isPrefixOf (l ++ r) = true := by
  induction l with
  | nil => simp [List.isPrefixOf]
  | cons a as ih => simp [List.isPrefixOf, ih]

theorem replaceNumeric_eq_self_of {l : List Char} (h : ∀ c ∈ l, c ≠ 'n') :
    replaceNumeric l = l := by
  induction l with
  | nil => rw [replaceNumeric]
  | cons c cs ih =>
    rw [replaceNumeric, if_neg, ih fun d hd => h d (List.mem_cons_of_mem c hd)]
    intro hpf
    have hd : "numeric".data = ['n', 'u', 'm', 'e', 'r', 'i', 'c'] := rfl
    rw [hd] at hpf
    simp only [List.isPrefixOf, Bool.and_eq_true, beq_iff_eq] at hpf
    exact h c (List.mem_cons_self c cs) hpf.1.symm

theorem replaceNumeric_numeric_append {args : List Char}
    (h : ∀ c ∈ args, c ≠ 'n') :
    replaceNumeric ("numeric".data ++ args) = "decimal".data ++ args := by
  have he : "numeric".data ++ args = 'n' :: ("umeric".data ++ args) := rfl
  rw [he, replaceNumeric, if_pos]
  · rw [show ("umeric".data ++ args).drop 6 = args from rfl,
        replaceNumeric_eq_self_of h]
  · show "numeric".data.isPrefixOf ("numeric".data ++ args) = true
    exact isPrefixOf_append _ _

theorem replaceNumeric_decimal_append {args : List Char}
    (h : ∀ c ∈ args, c ≠ 'n') :
    replaceNumeric ("decimal".data ++ args) = "decimal".data ++ args := by
  apply replaceNumeric_eq_self_of
  intro c hc
  rcases List.mem_append.mp hc with hc | hc
  · rw [show "decimal".data = ['d', 'e', 'c', 'i', 'm', 'a', 'l'] from rfl] at hc
    fin_cases hc <;> decide
  · exact h c hc

theorem removeWsAll_append (a b : List Char) :
    removeWsAll (a ++ b) = removeWsAll a ++ removeWsAll b := by
  simp [removeWsAll]

/-- C2: whenever the lowered and stripped type token starts with decimal
or numeric followed by a precision/scale suffix, the normalizer
canonicalizes the family name to decimal and keeps the suffix with all
whitespace removed, independently of the equivalence table (so the branch
runs before the table lookup). -/
theorem c2_normalize_data_type_decimal_branch (s : String)
    (fam args : List Char)
    (hfam : fam = "decimal".data ∨ fam = "numeric".data)
    (hargs : ∀ c ∈ args, isPrecScaleChar c = true)
    (hd : trimWs (s.data.map lowerAscii) = fam ++ args) :
    ∀ m : List (String × String),
      SchemaCompare.normalize_data_type_core m s.data =
        "decimal".data ++ removeWsAll args := by
  intro m
  have hn : ∀ c ∈ args, c ≠ 'n' := fun c hc => precScaleChar_ne_n (hargs c hc)
  have hdec : removeWsAll "decimal".data = "decimal".data := by decide
  unfold SchemaCompare.normalize_data_type_core
  rcases hfam with rfl | rfl
  · rw [hd, if_pos (Bool.or_eq_true _ _ |>.mpr (Or.inl (isPrefixOf_append _ _))),
        replaceNumeric_decimal_append hn, removeWsAll_append, hdec]
  · rw [hd, if_pos (Bool.or_eq_true _ _ |>.mpr (Or.inr (isPrefixOf_append _ _))),
        replaceNumeric_numeric_append hn, removeWsAll_append, hdec]

/-- C2 witness: the decimal branch applied to the spec example
DECIMAL(10, 2), evaluated to decimal(10,2), and independence from the
table instantiated at the table of the source. -/
theorem c2_normalize_data_type_decimal_branch_witness :
    SchemaCompare.normalize_data_type "DECIMAL(10, 2)" = "decimal(10,2)" := by
  have h := c2_normalize_data_type_decimal_branch "DECIMAL(10, 2)"
    "decimal".data "(10, 2)".data (Or.inl rfl) (by decide) (by decide)
    SchemaCompare.DATA_TYPE_MAPPING
  show (⟨SchemaCompare.normalize_data_type_core SchemaCompare.DATA_TYPE_MAPPING
    "DECIMAL(10, 2)".data⟩ : String) = "decimal(10,2)"
  rw [h]
  decide


/- ## Table mappings and the result shell shared by the check loops -/

/-- One value of the mappings dictionary: the per-table configuration.
The two list fields use the defaults of config.get. -/
structure TableConfig where
  sql_table : String
  primary_keys : List String := []
  exclude_columns : List String := []
deriving DecidableEq

/-- The shared shell of every result dictionary: total_tables,
valid_tables, error_tables and the per-table list. -/
structure RunResults (T : Type) where
  total_tables : Nat
  valid_tables : Nat
  error_tables : Nat
  tables : List T

/-- One iteration of a check loop: append the table entry and bump exactly
one of the two counters according to the per-table outcome. -/
def runFoldStep {T : Type} (step : String × TableConfig → T × Bool)
    (acc : RunResults T) (m : String × TableConfig) : RunResults T :=
  { acc with
    tables := acc.tables ++ [(step m).1],
    valid_tables := acc.valid_tables + (if (step m).2 then 1 else 0),
    error_tables := acc.error_tables + (if (step m).2 then 0 else 1) }

/-- The accumulation pattern shared by all check loops over the mappings
dictionary (iterated in insertion order, as Python dictionaries are). -/
def runFold {T : Type} (step : String × TableConfig → T × Bool)
    (mappings : List (String × TableConfig)) : RunResults T :=
  mappings.foldl (runFoldStep step)
    { total_tables := mappings.length, valid_tables := 0, error_tables := 0,
      tables := [] }

theorem runFoldAux {T : Type} (step : String × TableConfig → T × Bool) :
    ∀ (ms : List (String × TableConfig)) (acc : RunResults T),
      (ms.foldl (runFoldStep step) acc).tables.length =
        acc.tables.length + ms.length ∧
      (ms.foldl (runFoldStep step) acc).valid_tables +
        (ms.foldl (runFoldStep step) acc).error_tables =
        acc.valid_tables + acc.error_tables + ms.length ∧
      (ms.foldl (runFoldStep step) acc).total_tables = acc.total_tables := by
  intro ms
  induction ms with
  | nil => intro acc; simp
  | cons m ms ih =>
    intro acc
    obtain ⟨h1, h2, h3⟩ := ih (runFoldStep step acc m)
    have s1 : (runFoldStep step acc m).tables.length = acc.tables.length + 1 := by
      simp [runFoldStep]
    have s2 : (runFoldStep step acc m).valid_tables +
        (runFoldStep step acc m).error_tables =
        acc.valid_tables + acc.error_tables + 1 := by
      simp only [runFoldStep]
      cases (step m).2 <;> simp <;> omega
    have s3 : (runFoldStep step acc m).total_tables = acc.total_tables := by
      simp [runFoldStep]
    simp only [List.foldl_cons, List.length_cons]
    omega

/-- Every check run returns one table entry per mapping and the two
counters partition the mappings. -/
theorem runFold_invariant {T : Type} (step : String × TableConfig → T × Bool)
    (mappings : List (String × TableConfig)) :
    (runFold step mappings).tables.length = mappings.length ∧
    (runFold step mappings).valid_tables +
      (runFold step mappings).error_tables = mappings.length ∧
    (runFold step mappings).total_tables = mappings.length := by
  obtain ⟨h1, h2, h3⟩ := runFoldAux step mappings
    { total_tables := mappings.length, valid_tables := 0, error_tables := 0,
      tables := [] }
  exact ⟨by simpa using h1, by simpa using h2, by simpa using h3⟩

theorem mem_runFoldAux {T : Type} (step : String × TableConfig → T × Bool) :
    ∀ (ms : List (String × TableConfig)) (acc : RunResults T)
      (t : T), t ∈ (ms.foldl (runFoldStep step) acc).tables →
      t ∈ acc.tables ∨ ∃ m ∈ ms, t = (step m).1 := by
  intro ms
  induction ms with
  | nil => intro acc t h; exact Or.inl (by simpa using h)
  | cons m ms ih =>
    intro acc t h
    rcases ih (runFoldStep step acc m) t h with hin | ⟨m2, hm2, rfl⟩
    · simp only [runFoldStep, List.mem_append, List.mem_singleton] at hin
      rcases hin with hin | rfl
      · exact Or.inl hin
      · exact Or.inr ⟨m, List.mem_cons_self m ms, rfl⟩
    · exact Or.inr ⟨m2, List.mem_cons_of_mem m hm2, rfl⟩

theorem mem_runFold_tables {T : Type} {step : String × TableConfig → T × Bool}
    {mappings : List (String × TableConfig)} {t : T}
    (h : t ∈ (runFold step mappings).tables) :
    ∃ m ∈ mappings, t = (step m).1 := by
  rcases mem_runFoldAux step mappings _ t h with hin | hex
  · exact absurd hin (by simp)
  · exact hex

/- ## Schema catalog rows (outputs of get_athena_columns and
get_sqlserver_columns) -/

/-- One row of the Athena column dataframe. -/
structure AthenaColRow where
  original_name : String
  column_name : String
  data_type : String
  normalized_table_name : String
  normalized_name : String
deriving DecidableEq

/-- One row of the SQL Server column dataframe. -/
structure SqlColRow where
  schema_name : String
  original_name : String
  column_name : String
  data_type : String
  normalized_table_name : String
  normalized_schema : String
  normalized_name : String
deriving DecidableEq

/-- One entry of the columns list of a schema table result. -/
structure SchemaColEntry where
  normalized_name : String
  athena_column : String
  sql_column : String
  athena_type : String
  sql_type : String
  status : String
  status_class : String
deriving DecidableEq

/-- One per-table result of compare_schemas. -/
structure SchemaTableResult where
  id : String
  athena_name : String
  sql_name : String
  has_issues : Bool
  issues : List String
  columns : List SchemaColEntry
deriving DecidableEq

/-- The first segment of str.split on dot with maxsplit 1, and the rest. -/
def splitFirstDot (s : String) : String × String :=
  (⟨s.data.takeWhile (fun c => !(c == '.'))⟩,
   ⟨(s.data.dropWhile (fun c => !(c == '.'))).tail⟩)

/-- Membership test for a dot in the string. -/
def containsDot (s : String) : Bool := s.data.any (fun c => c == '.')

namespace SchemaCompare

/-- `SchemaComparator.IGNORE_COLUMNS` (schema_compare.py, lines 17-19). -/
def IGNORE_COLUMNS : List String :=
  ["country_code", "_start_time", "_window_end", "__lk_validation_failures"]

/-- The type-mismatch issue string of compare_schemas. -/
def mkTypeMismatchIssue (a : AthenaColRow) (srow : SqlColRow) : String :=
  "Type mismatch: " ++ a.column_name ++ " (" ++ a.data_type ++ ") vs " ++
    srow.column_name ++ " (" ++ srow.data_type ++ ")"

/-- The missing-column issue strings of compare_schemas. -/
def mkMissingInAthenaIssue (name : String) : String :=
  "Column missing in Athena: " ++ name

def mkMissingInSqlIssue (name : String) : String :=
  "Column missing in SQL Server: " ++ name

/-- The per-matched-column body of the common_cols loop of compare_schemas
(lines 251-284): the column entry, and the type-mismatch issue when one is
appended.  types_match is the type equality, overridden by the exact
row_version compatibility exception. -/
def buildColResult (a : AthenaColRow) (srow : SqlColRow) (norm_col : String) :
    SchemaColEntry × Option String :=
  let types_match := (a.data_type == srow.data_type) ||
    (norm_col == "row_version" && a.data_type == "integer" &&
     srow.data_type == "binary")
  ({ normalized_name := norm_col,
     athena_column := a.column_name,
     sql_column := srow.column_name,
     athena_type := a.data_type,
     sql_type := srow.data_type,
     status := if types_match then "Match" else "Type Mismatch",
     status_class := if types_match then "match" else "error" },
   if types_match then none else some (mkTypeMismatchIssue a srow))

/-- The column-comparison body of compare_schemas (lines 236-310) for one
table pair: from the column rows of the two tables, the issues list and
the columns list.  The exclusion filter removes the ignored canonical
names from both name sets before the partition into common, sql-only and
athena-only names. -/
def columnsPart (athena_cols : List AthenaColRow) (sql_cols : List SqlColRow) :
    List String × List SchemaColEntry :=
  let athena_col_names := ((athena_cols.map (fun r => r.normalized_name)).dedup).filter
    (fun c => !(IGNORE_COLUMNS.contains c))
  let sql_col_names := ((sql_cols.map (fun r => r.normalized_name)).dedup).filter
    (fun c => !(IGNORE_COLUMNS.contains c))
  let common_cols := athena_col_names.filter (fun c => sql_col_names.contains c)
  let athena_only := athena_col_names.filter
    (fun c => !(sql_col_names.contains c))
  let sql_only := sql_col_names.filter
    (fun c => !(athena_col_names.contains c))
  let matched := common_cols.filterMap (fun norm_col =>
    match athena_cols.find? (fun r => r.normalized_name == norm_col),
          sql_cols.find? (fun r => r.normalized_name == norm_col) with
    | some a, some srow => some (buildColResult a srow norm_col)
    | _, _ => none)
  let sqlOnlyEntries := sql_only.filterMap (fun norm_col =>
    (sql_cols.find? (fun r => r.normalized_name == norm_col)).map (fun srow =>
      (mkMissingInAthenaIssue srow.column_name,
       ({ normalized_name := norm_col,
          athena_column := "—", sql_column := srow.column_name,
          athena_type := "—", sql_type := srow.data_type,
          status := "Missing in Athena",
          status_class := "warning" } : SchemaColEntry))))
  let athenaOnlyEntries := athena_only.filterMap (fun norm_col =>
    (athena_cols.find? (fun r => r.normalized_name == norm_col)).map (fun a =>
      (mkMissingInSqlIssue a.column_name,
       ({ normalized_name := norm_col,
          athena_column := a.column_name, sql_column := "—",
          athena_type := a.data_type, sql_type := "—",
          status := "Missing in SQL Server",
          status_class := "warning" } : SchemaColEntry))))
  (matched.filterMap (fun p => p.2) ++
     sqlOnlyEntries.map (fun p => p.1) ++ athenaOnlyEntries.map (fun p => p.1),
   matched.map (fun p => p.1) ++
     sqlOnlyEntries.map (fun p => p.2) ++ athenaOnlyEntries.map (fun p => p.2))

/-- The per-mapping body of the compare_schemas loop (lines 191-312).
Besides the table entry it returns whether the table counts as valid.
The Python iteration over the name sets is modelled by iteration over the
deduplicated name lists; set membership is list membership.  The find?
calls mirror the .iloc[0] lookups of the first row carrying the normalized
name and cannot fail, because the names are drawn from those same rows. -/
def compareTable (athena_df : List AthenaColRow) (sql_df : List SqlColRow)
    (athena_table : String) (config : TableConfig) :
    SchemaTableResult × Bool :=
  let sql_table_full := config.sql_table
  let base : SchemaTableResult :=
    { id := normalize_name athena_table,
      athena_name := athena_table,
      sql_name := sql_table_full,
      has_issues := false,
      issues := [],
      columns := [] }
  let norm_athena_table := normalize_name athena_table
  let sp :=
    if containsDot sql_table_full then
      (normalize_name (splitFirstDot sql_table_full).1,
       normalize_name (splitFirstDot sql_table_full).2)
    else ("dbo", normalize_name sql_table_full)
  let sql_cols_subset := sql_df.filter
    (fun r => r.normalized_schema == sp.1 && r.normalized_table_name == sp.2)
  if !(athena_df.any (fun r => r.normalized_table_name == norm_athena_table)) then
    ({ base with
       issues := ["Table missing in Athena: " ++ athena_table],
       has_issues := true }, false)
  else if sql_cols_subset.isEmpty then
    ({ base with
       issues := ["Table missing in SQL Server: " ++ sql_table_full],
       has_issues := true }, false)
  else
    let pr := columnsPart
      (athena_df.filter (fun r => r.normalized_table_name == norm_athena_table))
      sql_cols_subset
    ({ base with
       issues := pr.1, columns := pr.2,
       has_issues := !pr.1.isEmpty }, pr.1.isEmpty)

/-- `SchemaComparator.compare_schemas` (schema_compare.py, lines 176-314),
with the two fetched column catalogs passed as parameters. -/
def compare_schemas (athena_df : List AthenaColRow) (sql_df : List SqlColRow)
    (mappings : List (String × TableConfig)) : RunResults SchemaTableResult :=
  runFold (fun m => compareTable athena_df sql_df m.1 m.2) mappings

end SchemaCompare


/- ## String helpers for reasoning about issue messages -/

theorem string_data_append (p x : String) : (p ++ x).data = p.data ++ x.data := by
  cases p
  cases x
  rfl

theorem string_data_get_of_append {p : String} (x : String) {i : ℕ} {c : Char}
    (h : p.data.get? i = some c) : (p ++ x).data.get? i = some c := by
  obtain ⟨hi, -⟩ := List.get?_eq_some.mp h
  rw [string_data_append, List.get?_append hi]
  exact h

theorem ne_of_data_get {s t : String} {i : ℕ} {c1 c2 : Char}
    (h1 : s.data.get? i = some c1) (h2 : t.data.get? i = some c2)
    (hne : c1 ≠ c2) : s ≠ t := by
  intro he
  apply hne
  apply Option.some.inj
  rw [← h1, ← h2, he]

theorem string_append_left_cancel {p x y : String}
    (he : p ++ x = p ++ y) : x = y := by
  have hd : p.data ++ x.data = p.data ++ y.data := by
    rw [← string_data_append, ← string_data_append, he]
  have h2 := List.append_cancel_left hd
  cases x
  cases y
  exact congrArg String.mk h2

/- ## C4: the compatibility exception is exact -/

theorem buildColResult_status (a : AthenaColRow) (srow : SqlColRow)
    (norm_col : String) :
    (SchemaCompare.buildColResult a srow norm_col).1.status =
      (if (a.data_type == srow.data_type) ||
          (norm_col == "row_version" && a.data_type == "integer" &&
           srow.data_type == "binary") then "Match" else "Type Mismatch") := rfl

theorem buildColResult_issue (a : AthenaColRow) (srow : SqlColRow)
    (norm_col : String) :
    (SchemaCompare.buildColResult a srow norm_col).2 =
      (if (a.data_type == srow.data_type) ||
          (norm_col == "row_version" && a.data_type == "integer" &&
           srow.data_type == "binary") then none
       else some (SchemaCompare.mkTypeMismatchIssue a srow)) := rfl

/-- C4: for a matched column whose canonical types differ, the
type-mismatch verdict is suppressed (status Match, no issue) exactly when
the (canonical column name, athena type, sql type) triple is the declared
exception row_version/integer/binary; for any other triple the column gets
a Type Mismatch status and a type-mismatch issue. -/
theorem c4_compatibility_exception_exact (a : AthenaColRow) (srow : SqlColRow)
    (norm_col : String) (hne : a.data_type ≠ srow.data_type) :
    (((SchemaCompare.buildColResult a srow norm_col).1.status = "Match" ∧
      (SchemaCompare.buildColResult a srow norm_col).2 = none) ↔
      (norm_col = "row_version" ∧ a.data_type = "integer" ∧
       srow.data_type = "binary")) ∧
    (¬(norm_col = "row_version" ∧ a.data_type = "integer" ∧
       srow.data_type = "binary") →
      ((SchemaCompare.buildColResult a srow norm_col).1.status =
        "Type Mismatch" ∧
       (SchemaCompare.buildColResult a srow norm_col).2 =
        some (SchemaCompare.mkTypeMismatchIssue a srow))) := by
  have hb : (a.data_type == srow.data_type) = false := beq_eq_false_iff_ne.mpr hne
  rw [buildColResult_status, buildColResult_issue, hb, Bool.false_or]
  cases hcond : (norm_col == "row_version" && a.data_type == "integer" &&
      srow.data_type == "binary") with
  | true =>
    simp only [Bool.and_eq_true, beq_iff_eq] at hcond
    constructor
    · simp [hcond.1.1, hcond.1.2, hcond.2]
    · intro habs
      exact absurd ⟨hcond.1.1, hcond.1.2, hcond.2⟩ habs
  | false =>
    have htriple : ¬(norm_col = "row_version" ∧ a.data_type = "integer" ∧
        srow.data_type = "binary") := by
      rintro ⟨rfl, h2, h3⟩
      rw [h2, h3] at hcond
      exact absurd hcond (by decide)
    have hsm : ("Type Mismatch" : String) ≠ "Match" := by decide
    constructor
    · simp [hsm, htriple]
    · intro _
      exact ⟨rfl, rfl⟩

/-- C4 witness: the exception triple is suppressed; the same column name
with a different type pair still mismatches. -/
theorem c4_compatibility_exception_exact_witness :
    (SchemaCompare.buildColResult
      { original_name := "t", column_name := "row_version",
        data_type := "integer", normalized_table_name := "t",
        normalized_name := "row_version" }
      { schema_name := "dbo", original_name := "t",
        column_name := "RowVersion", data_type := "binary",
        normalized_table_name := "t", normalized_schema := "dbo",
        normalized_name := "row_version" }
      "row_version").1.status = "Match" ∧
    (SchemaCompare.buildColResult
      { original_name := "t", column_name := "row_version",
        data_type := "varchar", normalized_table_name := "t",
        normalized_name := "row_version" }
      { schema_name := "dbo", original_name := "t",
        column_name := "RowVersion", data_type := "binary",
        normalized_table_name := "t", normalized_schema := "dbo",
        normalized_name := "row_version" }
      "row_version").1.status = "Type Mismatch" :=
  ⟨((c4_compatibility_exception_exact _ _ "row_version"
      (by decide)).1.mpr ⟨rfl, rfl, rfl⟩).1,
   ((c4_compatibility_exception_exact _ _ "row_version"
      (by decide)).2 (by decide)).1⟩


/- ## C3: ignored columns are excluded before matching -/

theorem mkTypeMismatchIssue_get0 (a : AthenaColRow) (srow : SqlColRow) :
    (SchemaCompare.mkTypeMismatchIssue a srow).data.get? 0 = some 'T' := by
  unfold SchemaCompare.mkTypeMismatchIssue
  repeat apply string_data_get_of_append
  decide

theorem mkMissingInAthenaIssue_get0 (n : String) :
    (SchemaCompare.mkMissingInAthenaIssue n).data.get? 0 = some 'C' := by
  unfold SchemaCompare.mkMissingInAthenaIssue
  repeat apply string_data_get_of_append
  decide

theorem mkMissingInAthenaIssue_get18 (n : String) :
    (SchemaCompare.mkMissingInAthenaIssue n).data.get? 18 = some 'A' := by
  unfold SchemaCompare.mkMissingInAthenaIssue
  repeat apply string_data_get_of_append
  decide

theorem mkMissingInSqlIssue_get0 (n : String) :
    (SchemaCompare.mkMissingInSqlIssue n).data.get? 0 = some 'C' := by
  unfold SchemaCompare.mkMissingInSqlIssue
  repeat apply string_data_get_of_append
  decide

theorem mkMissingInSqlIssue_get18 (n : String) :
    (SchemaCompare.mkMissingInSqlIssue n).data.get? 18 = some 'S' := by
  unfold SchemaCompare.mkMissingInSqlIssue
  repeat apply string_data_get_of_append
  decide

theorem tableMissingAthena_get0 (t : String) :
    ("Table missing in Athena: " ++ t).data.get? 0 = some 'T' := by
  repeat apply string_data_get_of_append
  decide

theorem tableMissingSql_get0 (t : String) :
    ("Table missing in SQL Server: " ++ t).data.get? 0 = some 'T' := by
  repeat apply string_data_get_of_append
  decide

theorem not_ignored_of_mem_filtered {names : List String} {ncol g : String}
    (h : ncol ∈ names.filter (fun c => !(SchemaCompare.IGNORE_COLUMNS.contains c)))
    (hg : g ∈ SchemaCompare.IGNORE_COLUMNS) : ncol ≠ g := by
  rintro rfl
  have h2 := (List.mem_filter.mp h).2
  simp at h2
  exact h2 hg


theorem columnsPart_ignored (athena_cols : List AthenaColRow)
    (sql_cols : List SqlColRow)
    (hwfA : ∀ r ∈ athena_cols,
      r.normalized_name = SchemaCompare.normalize_name r.column_name)
    (hwfS : ∀ r ∈ sql_cols,
      r.normalized_name = SchemaCompare.normalize_name r.column_name)
    {g : String} (hg : g ∈ SchemaCompare.IGNORE_COLUMNS) :
    (∀ ce ∈ (SchemaCompare.columnsPart athena_cols sql_cols).2,
       ce.normalized_name ≠ g) ∧
    (∀ name, SchemaCompare.normalize_name name = g →
       SchemaCompare.mkMissingInAthenaIssue name ∉
         (SchemaCompare.columnsPart athena_cols sql_cols).1 ∧
       SchemaCompare.mkMissingInSqlIssue name ∉
         (SchemaCompare.columnsPart athena_cols sql_cols).1) := by
  simp only [SchemaCompare.columnsPart]
  constructor
  · intro ce hce
    rcases List.mem_append.mp hce with hce | hce
    · rcases List.mem_append.mp hce with hce | hce
      · obtain ⟨p, hp, rfl⟩ := List.mem_map.mp hce
        obtain ⟨ncol, hncol, hf⟩ := List.mem_filterMap.mp hp
        have hne : ncol ≠ g :=
          not_ignored_of_mem_filtered (List.mem_filter.mp hncol).1 hg
        cases hA : athena_cols.find? (fun r => r.normalized_name == ncol) with
        | none => rw [hA] at hf; simp at hf
        | some a =>
          cases hS : sql_cols.find? (fun r => r.normalized_name == ncol) with
          | none => rw [hA, hS] at hf; simp at hf
          | some srow =>
            rw [hA, hS] at hf
            simp only [Option.some.injEq] at hf
            rw [← hf]
            exact hne
      · obtain ⟨p, hp, rfl⟩ := List.mem_map.mp hce
        obtain ⟨ncol, hncol, hf⟩ := List.mem_filterMap.mp hp
        have hne : ncol ≠ g :=
          not_ignored_of_mem_filtered (List.mem_filter.mp hncol).1 hg
        cases hS : sql_cols.find? (fun r => r.normalized_name == ncol) with
        | none => rw [hS] at hf; simp at hf
        | some srow =>
          rw [hS] at hf
          simp only [Option.map_some', Option.some.injEq] at hf
          rw [← hf]
          exact hne
    · obtain ⟨p, hp, rfl⟩ := List.mem_map.mp hce
      obtain ⟨ncol, hncol, hf⟩ := List.mem_filterMap.mp hp
      have hne : ncol ≠ g :=
        not_ignored_of_mem_filtered (List.mem_filter.mp hncol).1 hg
      cases hA : athena_cols.find? (fun r => r.normalized_name == ncol) with
      | none => rw [hA] at hf; simp at hf
      | some a =>
        rw [hA] at hf
        simp only [Option.map_some', Option.some.injEq] at hf
        rw [← hf]
        exact hne
  · intro name hname
    constructor
    · intro hmem
      rcases List.mem_append.mp hmem with hin | hin
      · rcases List.mem_append.mp hin with hin | hin
        · obtain ⟨p, hp, hp2⟩ := List.mem_filterMap.mp hin
          obtain ⟨ncol, hncol, hf⟩ := List.mem_filterMap.mp hp
          cases hA : athena_cols.find? (fun r => r.normalized_name == ncol) with
          | none => rw [hA] at hf; simp at hf
          | some a =>
            cases hS : sql_cols.find? (fun r => r.normalized_name == ncol) with
            | none => rw [hA, hS] at hf; simp at hf
            | some srow =>
              rw [hA, hS] at hf
              simp only [Option.some.injEq] at hf
              rw [← hf, buildColResult_issue] at hp2
              rcases ite_eq_iff.mp hp2 with ⟨-, habs⟩ | ⟨-, heq⟩
              · exact absurd habs (by simp)
              · exact ne_of_data_get (mkTypeMismatchIssue_get0 a srow)
                  (mkMissingInAthenaIssue_get0 name) (by decide)
                  (Option.some.inj heq)
        · obtain ⟨p, hp, hpeq⟩ := List.mem_map.mp hin
          obtain ⟨ncol, hncol, hf⟩ := List.mem_filterMap.mp hp
          have hne : ncol ≠ g :=
            not_ignored_of_mem_filtered (List.mem_filter.mp hncol).1 hg
          cases hS : sql_cols.find? (fun r => r.normalized_name == ncol) with
          | none => rw [hS] at hf; simp at hf
          | some srow =>
            rw [hS] at hf
            simp only [Option.map_some', Option.some.injEq] at hf
            rw [← hf] at hpeq
            have hcancel : srow.column_name = name := by
              unfold SchemaCompare.mkMissingInAthenaIssue at hpeq
              exact string_append_left_cancel hpeq
            have hsmem : srow ∈ sql_cols := List.mem_of_find?_eq_some hS
            have hsn : srow.normalized_name = ncol := by
              have := List.find?_some hS
              simpa using this
            apply hne
            rw [← hsn, hwfS srow hsmem, hcancel, hname]
      · obtain ⟨p, hp, hpeq⟩ := List.mem_map.mp hin
        obtain ⟨ncol, hncol, hf⟩ := List.mem_filterMap.mp hp
        cases hA : athena_cols.find? (fun r => r.normalized_name == ncol) with
        | none => rw [hA] at hf; simp at hf
        | some a =>
          rw [hA] at hf
          simp only [Option.map_some', Option.some.injEq] at hf
          rw [← hf] at hpeq
          exact ne_of_data_get (mkMissingInSqlIssue_get18 a.column_name)
            (mkMissingInAthenaIssue_get18 name) (by decide) hpeq
    · intro hmem
      rcases List.mem_append.mp hmem with hin | hin
      · rcases List.mem_append.mp hin with hin | hin
        · obtain ⟨p, hp, hp2⟩ := List.mem_filterMap.mp hin
          obtain ⟨ncol, hncol, hf⟩ := List.mem_filterMap.mp hp
          cases hA : athena_cols.find? (fun r => r.normalized_name == ncol) with
          | none => rw [hA] at hf; simp at hf
          | some a =>
            cases hS : sql_cols.find? (fun r => r.normalized_name == ncol) with
            | none => rw [hA, hS] at hf; simp at hf
            | some srow =>
              rw [hA, hS] at hf
              simp only [Option.some.injEq] at hf
              rw [← hf, buildColResult_issue] at hp2
              rcases ite_eq_iff.mp hp2 with ⟨-, habs⟩ | ⟨-, heq⟩
              · exact absurd habs (by simp)
              · exact ne_of_data_get (mkTypeMismatchIssue_get0 a srow)
                  (mkMissingInSqlIssue_get0 name) (by decide)
                  (Option.some.inj heq)
        · obtain ⟨p, hp, hpeq⟩ := List.mem_map.mp hin
          obtain ⟨ncol, hncol, hf⟩ := List.mem_filterMap.mp hp
          cases hS : sql_cols.find? (fun r => r.normalized_name == ncol) with
          | none => rw [hS] at hf; simp at hf
          | some srow =>
            rw [hS] at hf
            simp only [Option.map_some', Option.some.injEq] at hf
            rw [← hf] at hpeq
            exact ne_of_data_get (mkMissingInAthenaIssue_get18 srow.column_name)
              (mkMissingInSqlIssue_get18 name) (by decide) hpeq
      · obtain ⟨p, hp, hpeq⟩ := List.mem_map.mp hin
        obtain ⟨ncol, hncol, hf⟩ := List.mem_filterMap.mp hp
        have hne : ncol ≠ g :=
          not_ignored_of_mem_filtered (List.mem_filter.mp hncol).1 hg
        cases hA : athena_cols.find? (fun r => r.normalized_name == ncol) with
        | none => rw [hA] at hf; simp at hf
        | some a =>
          rw [hA] at hf
          simp only [Option.map_some', Option.some.injEq] at hf
          rw [← hf] at hpeq
          have hcancel : a.column_name = name := by
            unfold SchemaCompare.mkMissingInSqlIssue at hpeq
            exact string_append_left_cancel hpeq
          have hamem : a ∈ athena_cols := List.mem_of_find?_eq_some hA
          have han : a.normalized_name = ncol := by
            have := List.find?_some hA
            simpa using this
          apply hne
          rw [← han, hwfA a hamem, hcancel, hname]


theorem compareTable_ignored (athena_df : List AthenaColRow)
    (sql_df : List SqlColRow) (atbl : String) (cfg : TableConfig)
    (hwfA : ∀ r ∈ athena_df,
      r.normalized_name = SchemaCompare.normalize_name r.column_name)
    (hwfS : ∀ r ∈ sql_df,
      r.normalized_name = SchemaCompare.normalize_name r.column_name)
    {g : String} (hg : g ∈ SchemaCompare.IGNORE_COLUMNS) :
    (∀ ce ∈ (SchemaCompare.compareTable athena_df sql_df atbl cfg).1.columns,
       ce.normalized_name ≠ g) ∧
    (∀ name, SchemaCompare.normalize_name name = g →
       SchemaCompare.mkMissingInAthenaIssue name ∉
         (SchemaCompare.compareTable athena_df sql_df atbl cfg).1.issues ∧
       SchemaCompare.mkMissingInSqlIssue name ∉
         (SchemaCompare.compareTable athena_df sql_df atbl cfg).1.issues) := by
  simp only [SchemaCompare.compareTable]
  split
  · refine ⟨fun ce hce => ?_, fun name hname => ⟨?_, ?_⟩⟩
    · simp at hce
    · intro hmem
      simp only [List.mem_singleton] at hmem
      exact ne_of_data_get (mkMissingInAthenaIssue_get0 name)
        (tableMissingAthena_get0 atbl) (by decide) hmem
    · intro hmem
      simp only [List.mem_singleton] at hmem
      exact ne_of_data_get (mkMissingInSqlIssue_get0 name)
        (tableMissingAthena_get0 atbl) (by decide) hmem
  · split <;> split <;>
      first
      | exact columnsPart_ignored _ _
          (fun r hr => hwfA r (List.mem_filter.mp hr).1)
          (fun r hr => hwfS r (List.mem_filter.mp hr).1) hg
      | refine ⟨fun ce hce => by simp at hce, fun name hname =>
          ⟨fun hmem => ne_of_data_get (mkMissingInAthenaIssue_get0 name)
            (tableMissingSql_get0 cfg.sql_table) (by decide)
            (by simpa using hmem),
           fun hmem => ne_of_data_get (mkMissingInSqlIssue_get0 name)
            (tableMissingSql_get0 cfg.sql_table) (by decide)
            (by simpa using hmem)⟩⟩

/-- C3: in schema reconciliation, every canonical name of the fixed
always-ignore set is removed from both sides before the partition is
computed, so no table ever carries a column entry with an ignored
canonical name, nor a missing-on-one-side issue mentioning a column whose
canonical name is ignored.  The two well-formedness hypotheses state what
the catalog readers establish: the normalized_name field of every row is
the normalizer applied to its column_name. -/
theorem c3_ignored_columns_never_reported
    (athena_df : List AthenaColRow) (sql_df : List SqlColRow)
    (mappings : List (String × TableConfig))
    (hwfA : ∀ r ∈ athena_df,
      r.normalized_name = SchemaCompare.normalize_name r.column_name)
    (hwfS : ∀ r ∈ sql_df,
      r.normalized_name = SchemaCompare.normalize_name r.column_name) :
    ∀ t ∈ (SchemaCompare.compare_schemas athena_df sql_df mappings).tables,
      ∀ g ∈ SchemaCompare.IGNORE_COLUMNS,
        (∀ ce ∈ t.columns, ce.normalized_name ≠ g) ∧
        (∀ name, SchemaCompare.normalize_name name = g →
          SchemaCompare.mkMissingInAthenaIssue name ∉ t.issues ∧
          SchemaCompare.mkMissingInSqlIssue name ∉ t.issues) := by
  intro t ht g hg
  obtain ⟨m, hm, rfl⟩ := mem_runFold_tables ht
  exact compareTable_ignored athena_df sql_df m.1 m.2 hwfA hwfS hg

/-- A small concrete catalog for the C3 witness: the Athena side of table
t carries the ignored column country_code, the SQL side does not. -/
def c3AthenaFixture : List AthenaColRow :=
  [{ original_name := "t", column_name := "id", data_type := "integer",
     normalized_table_name := "t", normalized_name := "id" },
   { original_name := "t", column_name := "country_code",
     data_type := "varchar", normalized_table_name := "t",
     normalized_name := "country_code" }]

def c3SqlFixture : List SqlColRow :=
  [{ schema_name := "dbo", original_name := "t", column_name := "ID",
     data_type := "integer", normalized_table_name := "t",
     normalized_schema := "dbo", normalized_name := "id" }]

/-- C3 witness: on the concrete catalog, the table entry produced by the
run never mentions country_code as a column entry nor as a
missing-in-SQL-Server issue, by the theorem applied at that input. -/
theorem c3_ignored_columns_never_reported_witness :
    (∀ ce ∈ (SchemaCompare.compareTable c3AthenaFixture c3SqlFixture "t"
        { sql_table := "dbo.t" }).1.columns,
      ce.normalized_name ≠ "country_code") ∧
    SchemaCompare.mkMissingInSqlIssue "country_code" ∉
      (SchemaCompare.compareTable c3AthenaFixture c3SqlFixture "t"
        { sql_table := "dbo.t" }).1.issues := by
  have h := c3_ignored_columns_never_reported c3AthenaFixture c3SqlFixture
    [("t", { sql_table := "dbo.t" })] (by decide) (by decide)
    (SchemaCompare.compareTable c3AthenaFixture c3SqlFixture "t"
      { sql_table := "dbo.t" }).1 (by decide) "country_code" (by decide)
  exact ⟨h.1, (h.2 "country_code" (by decide)).2⟩


/- ## Count check (count_check.py) -/

/-- The id field of the key-integrity checks:
athena_table.lower().replace(space, underscore) - note this is not the
full normalizer. -/
def pyLowerReplace (s : String) : String :=
  ⟨(s.data.map lowerAscii).map replSpace⟩

namespace CountCheck

/-- The counts payload of a count-check table entry (populated only when
both fetches succeed). -/
structure CountInfo where
  athena_count : Int
  sql_count : Int
  status : String
  status_class : String
deriving DecidableEq

/-- One per-table result of check_counts.  counts = none models the empty
initial dictionary. -/
structure CountTableResult where
  id : String
  athena_name : String
  sql_name : String
  has_issues : Bool
  issues : List String
  counts : Option CountInfo
deriving DecidableEq

/-- The row-count mismatch issue string (count_check.py, lines 105-108),
recording the absolute difference of the two counts. -/
def mkCountMismatchIssue (athena_count sql_count : Int) : String :=
  "Row count mismatch: Athena (" ++ toString athena_count ++
    ") vs SQL Server (" ++ toString sql_count ++ "). Diff: " ++
    toString (athena_count - sql_count).natAbs

/-- The per-mapping body of the check_counts loop (count_check.py, lines
79-118).  The two count fetches become function parameters returning
Except String Int; a raised exception is the error case carrying str(e).
Returns the table entry and whether the table counts as valid. -/
def countStep (fetchA : String → Except String Int)
    (fetchS : String → Except String Int)
    (m : String × TableConfig) : CountTableResult × Bool :=
  let base : CountTableResult :=
    { id := pyLowerReplace m.1, athena_name := m.1,
      sql_name := m.2.sql_table, has_issues := false, issues := [],
      counts := none }
  match fetchA m.1 with
  | .error e => ({ base with issues := [e], has_issues := true }, false)
  | .ok athena_count =>
    match fetchS m.2.sql_table with
    | .error e => ({ base with issues := [e], has_issues := true }, false)
    | .ok sql_count =>
      let withCounts :=
        { base with
          counts := some
            { athena_count := athena_count, sql_count := sql_count,
              status := if athena_count == sql_count then "Match"
                else "Mismatch",
              status_class := if athena_count == sql_count then "match"
                else "error" } }
      if athena_count ≠ sql_count then
        ({ withCounts with
           issues := [mkCountMismatchIssue athena_count sql_count],
           has_issues := true }, false)
      else (withCounts, true)

/-- `CountChecker.check_counts` (count_check.py, lines 70-120), with the
two fetches passed as parameters. -/
def check_counts (fetchA fetchS : String → Except String Int)
    (mappings : List (String × TableConfig)) : RunResults CountTableResult :=
  runFold (countStep fetchA fetchS) mappings

end CountCheck

/-- C6: when both fetches succeed, the count-check table entry has counts
status Match exactly when the two counts are equal; when they differ the
single issue records the absolute difference, and the table is counted as
error rather than valid. -/
theorem c6_count_check_match_iff_equal
    (fetchA fetchS : String → Except String Int) (name : String)
    (cfg : TableConfig) (a b : Int)
    (ha : fetchA name = Except.ok a)
    (hb : fetchS cfg.sql_table = Except.ok b) :
    (∃ info, (CountCheck.countStep fetchA fetchS (name, cfg)).1.counts =
        some info ∧ (info.status = "Match" ↔ a = b) ∧
        info.athena_count = a ∧ info.sql_count = b) ∧
    (a = b → (CountCheck.countStep fetchA fetchS (name, cfg)).1.issues = [] ∧
      (CountCheck.countStep fetchA fetchS (name, cfg)).2 = true) ∧
    (a ≠ b →
      (CountCheck.countStep fetchA fetchS (name, cfg)).1.issues =
        [CountCheck.mkCountMismatchIssue a b] ∧
      (CountCheck.countStep fetchA fetchS (name, cfg)).2 = false) := by
  simp only [CountCheck.countStep, ha, hb]
  by_cases heq : a = b
  · subst heq
    simp
  · have hbe : (a == b) = false := beq_eq_false_iff_ne.mpr heq
    simp [heq, hbe]

/-- C6 witness: counts (100, 100) give Match and a valid table; counts
(100, 97) give Mismatch with the recorded difference 3. -/
theorem c6_count_check_match_iff_equal_witness :
    (∃ info,
      (CountCheck.countStep (fun _ => Except.ok 100) (fun _ => Except.ok 100)
        ("t", { sql_table := "t" })).1.counts = some info ∧
      info.status = "Match") ∧
    (CountCheck.countStep (fun _ => Except.ok 100) (fun _ => Except.ok 97)
      ("t", { sql_table := "t" })).1.issues =
      ["Row count mismatch: Athena (100) vs SQL Server (97). Diff: 3"] := by
  have h1 := c6_count_check_match_iff_equal (fun _ => Except.ok 100)
    (fun _ => Except.ok 100) "t" { sql_table := "t" } 100 100 rfl rfl
  have h2 := c6_count_check_match_iff_equal (fun _ => Except.ok 100)
    (fun _ => Except.ok 97) "t" { sql_table := "t" } 100 97 rfl rfl
  refine ⟨?_, ?_⟩
  · obtain ⟨info, hinfo, hiff, -, -⟩ := h1.1
    exact ⟨info, hinfo, hiff.mpr rfl⟩
  · rw [(h2.2.2 (by decide)).1]
    decide


/- ## Duplicate check (duplicate_check.py) -/

namespace DupCheck

/-- One record of df.to_dict applied to a duplicates query result: the key
values plus the cnt column, as column/value pairs. -/
def DupRow := List (String × String)
deriving instance DecidableEq for DupRow

/-- The duplicates payload of a table entry (populated only when both
fetches succeed). -/
structure DupInfo where
  athena_duplicates : List DupRow
  sql_duplicates : List DupRow
  status : String
  status_class : String
deriving DecidableEq

/-- One per-table result of check_duplicates. -/
structure DupTableResult where
  id : String
  athena_name : String
  sql_name : String
  has_issues : Bool
  issues : List String
  duplicates : Option DupInfo
deriving DecidableEq

def mkDupAthenaIssue (n : Nat) : String :=
  "Found " ++ toString n ++ " duplicate sets in Athena (showing top 100)"

def mkDupSqlIssue (n : Nat) : String :=
  "Found " ++ toString n ++ " duplicate sets in SQL Server (showing top 100)"

/-- The per-mapping body of the check_duplicates loop (duplicate_check.py,
lines 85-134).  The empty-primary-keys guard runs before any fetch. -/
def dupStep (fetchA fetchS : String → List String → Except String (List DupRow))
    (m : String × TableConfig) : DupTableResult × Bool :=
  let base : DupTableResult :=
    { id := pyLowerReplace m.1, athena_name := m.1,
      sql_name := m.2.sql_table, has_issues := false, issues := [],
      duplicates := none }
  if m.2.primary_keys = [] then
    ({ base with
       issues := ["Skipped: No primary keys specified"],
       has_issues := true }, false)
  else
    match fetchA m.1 m.2.primary_keys with
    | .error e => ({ base with issues := [e], has_issues := true }, false)
    | .ok athena_dupes =>
      match fetchS m.2.sql_table m.2.primary_keys with
      | .error e => ({ base with issues := [e], has_issues := true }, false)
      | .ok sql_dupes =>
        let has_dupes := !athena_dupes.isEmpty || !sql_dupes.isEmpty
        let withD :=
          { base with
            duplicates := some
              { athena_duplicates := athena_dupes,
                sql_duplicates := sql_dupes,
                status := if has_dupes then "Duplicate Found"
                  else "No Duplicates",
                status_class := if has_dupes then "error" else "match" } }
        let issues :=
          (if !athena_dupes.isEmpty then
            [mkDupAthenaIssue athena_dupes.length] else []) ++
          (if !sql_dupes.isEmpty then
            [mkDupSqlIssue sql_dupes.length] else [])
        if issues.isEmpty then (withD, true)
        else ({ withD with issues := issues, has_issues := true }, false)

/-- `DuplicateChecker.check_duplicates` (duplicate_check.py, lines
76-136). -/
def check_duplicates
    (fetchA fetchS : String → List String → Except String (List DupRow))
    (mappings : List (String × TableConfig)) : RunResults DupTableResult :=
  runFold (dupStep fetchA fetchS) mappings

end DupCheck

/- ## Null check (null_check.py) -/

namespace NullCheck

/-- The per-key null counts returned by a fetch, keyed in primary-key
order. -/
def NullCounts := List (String × Int)
deriving instance DecidableEq for NullCounts

/-- The nulls payload of a table entry. -/
structure NullInfo where
  athena_nulls : NullCounts
  sql_nulls : NullCounts
  status : String
  status_class : String
deriving DecidableEq

/-- One per-table result of check_nulls. -/
structure NullTableResult where
  id : String
  athena_name : String
  sql_name : String
  has_issues : Bool
  issues : List String
  nulls : Option NullInfo
deriving DecidableEq

def mkNullAthenaIssue (key : String) (count : Int) : String :=
  "Athena: Column \x27" ++ key ++ "\x27 has " ++ toString count ++ " NULLs"

def mkNullSqlIssue (key : String) (count : Int) : String :=
  "SQL Server: Column \x27" ++ key ++ "\x27 has " ++ toString count ++ " NULLs"

/-- The per-mapping body of the check_nulls loop (null_check.py, lines
85-137).  The empty-primary-keys guard runs before any fetch. -/
def nullStep (fetchA fetchS : String → List String → Except String NullCounts)
    (m : String × TableConfig) : NullTableResult × Bool :=
  let base : NullTableResult :=
    { id := pyLowerReplace m.1, athena_name := m.1,
      sql_name := m.2.sql_table, has_issues := false, issues := [],
      nulls := none }
  if m.2.primary_keys = [] then
    ({ base with
       issues := ["Skipped: No primary keys specified"],
       has_issues := true }, false)
  else
    match fetchA m.1 m.2.primary_keys with
    | .error e => ({ base with issues := [e], has_issues := true }, false)
    | .ok athena_nulls =>
      match fetchS m.2.sql_table m.2.primary_keys with
      | .error e => ({ base with issues := [e], has_issues := true }, false)
      | .ok sql_nulls =>
        let has_nulls := athena_nulls.any (fun kv => kv.2 > 0) ||
          sql_nulls.any (fun kv => kv.2 > 0)
        let withN :=
          { base with
            nulls := some
              { athena_nulls := athena_nulls, sql_nulls := sql_nulls,
                status := if has_nulls then "Nulls Found" else "No Nulls",
                status_class := if has_nulls then "error" else "match" } }
        let issues :=
          athena_nulls.filterMap (fun kv =>
            if kv.2 > 0 then some (mkNullAthenaIssue kv.1 kv.2) else none) ++
          sql_nulls.filterMap (fun kv =>
            if kv.2 > 0 then some (mkNullSqlIssue kv.1 kv.2) else none)
        if issues.isEmpty then (withN, true)
        else ({ withN with issues := issues, has_issues := true }, false)

/-- `NullChecker.check_nulls` (null_check.py, lines 76-139). -/
def check_nulls
    (fetchA fetchS : String → List String → Except String NullCounts)
    (mappings : List (String × TableConfig)) : RunResults NullTableResult :=
  runFold (nullStep fetchA fetchS) mappings

end NullCheck

/- ## C5: empty primary keys -/

/-- C5 counterexample: with an empty primary_keys list, the duplicate
check does not produce a skipped status distinct from error: the table
entry is flagged (has_issues = true), the run counts it under
error_tables, and no status field carries skipped (the duplicates payload
stays empty). -/
theorem c5_empty_pks_counterexample :
    (DupCheck.check_duplicates (fun _ _ => Except.ok [])
      (fun _ _ => Except.ok []) [("t", { sql_table := "s" })]).error_tables
        = 1 ∧
    (DupCheck.check_duplicates (fun _ _ => Except.ok [])
      (fun _ _ => Except.ok []) [("t", { sql_table := "s" })]).valid_tables
        = 0 ∧
    (DupCheck.check_duplicates (fun _ _ => Except.ok [])
      (fun _ _ => Except.ok []) [("t", { sql_table := "s" })]).tables =
      [{ id := "t", athena_name := "t", sql_name := "s", has_issues := true,
         issues := ["Skipped: No primary keys specified"],
         duplicates := none }] := by
  refine ⟨rfl, rfl, ?_⟩
  decide

/-- C5 amended: with an empty primary_keys list, both key-dependent checks
append the explanatory issue Skipped: No primary keys specified, set
has_issues, count the table as an error table (not a valid one), leave the
payload empty, and consult no fetch (the outcome is identical for any two
fetch functions). -/
theorem c5_empty_pks_skip_issue_no_fetch
    (name : String) (cfg : TableConfig) (hpk : cfg.primary_keys = [])
    (fA fS fA2 fS2 : String → List String →
      Except String (List DupCheck.DupRow))
    (gA gS gA2 gS2 : String → List String →
      Except String NullCheck.NullCounts) :
    (DupCheck.dupStep fA fS (name, cfg) =
      DupCheck.dupStep fA2 fS2 (name, cfg)) ∧
    ((DupCheck.dupStep fA fS (name, cfg)).1.issues =
      ["Skipped: No primary keys specified"]) ∧
    ((DupCheck.dupStep fA fS (name, cfg)).1.has_issues = true) ∧
    ((DupCheck.dupStep fA fS (name, cfg)).1.duplicates = none) ∧
    ((DupCheck.dupStep fA fS (name, cfg)).2 = false) ∧
    (NullCheck.nullStep gA gS (name, cfg) =
      NullCheck.nullStep gA2 gS2 (name, cfg)) ∧
    ((NullCheck.nullStep gA gS (name, cfg)).1.issues =
      ["Skipped: No primary keys specified"]) ∧
    ((NullCheck.nullStep gA gS (name, cfg)).1.has_issues = true) ∧
    ((NullCheck.nullStep gA gS (name, cfg)).1.nulls = none) ∧
    ((NullCheck.nullStep gA gS (name, cfg)).2 = false) := by
  simp only [DupCheck.dupStep, NullCheck.nullStep, hpk]
  simp

/-- C5 witness: the amended claim applied at a concrete mapping with two
visibly different fetch functions. -/
theorem c5_empty_pks_skip_issue_no_fetch_witness :
    (DupCheck.dupStep (fun _ _ => Except.ok [])
        (fun _ _ => Except.ok []) ("t", { sql_table := "s" }) =
      DupCheck.dupStep (fun _ _ => Except.error "unreachable")
        (fun _ _ => Except.error "unreachable") ("t", { sql_table := "s" })) ∧
    ((DupCheck.dupStep (fun _ _ => Except.ok [])
        (fun _ _ => Except.ok []) ("t", { sql_table := "s" })).1.issues =
      ["Skipped: No primary keys specified"]) := by
  have h := c5_empty_pks_skip_issue_no_fetch "t" { sql_table := "s" } rfl
    (fun _ _ => Except.ok []) (fun _ _ => Except.ok [])
    (fun _ _ => Except.error "unreachable")
    (fun _ _ => Except.error "unreachable")
    (fun _ _ => Except.ok []) (fun _ _ => Except.ok [])
    (fun _ _ => Except.ok []) (fun _ _ => Except.ok [])
  exact ⟨h.1, h.2.1⟩


/- ## Data comparison (data_compare.py): value parsing -/

def isDigitChar (c : Char) : Bool := decide (48 ≤ c.toNat ∧ c.toNat ≤ 57)

def digitsToNat (l : List Char) : Nat :=
  l.foldl (fun acc c => acc * 10 + (c.toNat - 48)) 0

def takeDigits (l : List Char) : List Char × List Char :=
  (l.takeWhile isDigitChar, l.dropWhile isDigitChar)

/-- Python int() on a decimal string: surrounding whitespace, optional
sign, a nonempty digit run.  (Underscore digit separators and non-ASCII
digits are outside the model.) -/
def pyIntParse (s : String) : Option Int :=
  let l := trimWs s.data
  let sr : Int × List Char :=
    match l with
    | '+' :: r => (1, r)
    | '-' :: r => (-1, r)
    | r => (1, r)
  if sr.2 ≠ [] ∧ sr.2.all isDigitChar then
    some (sr.1 * (digitsToNat sr.2 : Int))
  else none

/-- Python float() on a finite decimal string: surrounding whitespace,
optional sign, digits with an optional fractional part, an optional
decimal exponent.  The value is taken as an exact rational (the binary
rounding of the IEEE double and the inf/nan tokens are outside the
model). -/
def pyFloatParse (s : String) : Option ℚ :=
  let l := trimWs s.data
  let sr : ℚ × List Char :=
    match l with
    | '+' :: r => (1, r)
    | '-' :: r => (-1, r)
    | r => (1, r)
  let ip := (takeDigits sr.2).1
  let r2 := (takeDigits sr.2).2
  let fpr : List Char × List Char :=
    match r2 with
    | '.' :: r => takeDigits r
    | r => ([], r)
  if ip = [] ∧ fpr.1 = [] then none
  else
    let mant : ℚ := sr.1 * ((digitsToNat ip : ℚ) +
      (digitsToNat fpr.1 : ℚ) / (10 : ℚ) ^ fpr.1.length)
    match fpr.2 with
    | [] => some mant
    | 'e' :: r4 => pyParseExponentPart mant r4
    | 'E' :: r4 => pyParseExponentPart mant r4
    | _ => none
where
  pyParseExponentPart (mant : ℚ) (r4 : List Char) : Option ℚ :=
    let er : Int × List Char :=
      match r4 with
      | '+' :: r => (1, r)
      | '-' :: r => (-1, r)
      | r => (1, r)
    if er.2 ≠ [] ∧ er.2.all isDigitChar then
      some (mant * (10 : ℚ) ^ (er.1 * (digitsToNat er.2 : Int)))
    else none

/-- The numeric reading of a cell (data_compare.py, lines 187-188):
float(v) when the raw string contains a dot, int(v) otherwise. -/
def pyNumCell (s : String) : Option ℚ :=
  if s.data.contains '.' then pyFloatParse s
  else (pyIntParse s).map (fun z => (z : ℚ))

/- ## Data comparison: datetime parsing (strptime) -/

/-- A Python datetime without its microsecond field. -/
structure PyDateTime where
  year : Nat
  month : Nat
  day : Nat
  hour : Nat
  minute : Nat
  second : Nat
deriving DecidableEq

def isLeapYear (y : Nat) : Bool :=
  (y % 4 == 0 && y % 100 != 0) || y % 400 == 0

def daysInMonth (y m : Nat) : Nat :=
  if m = 2 then (if isLeapYear y then 29 else 28)
  else if m = 4 ∨ m = 6 ∨ m = 9 ∨ m = 11 then 30 else 31

/-- strptime with format %Y-%m-%d %H:%M:%S up to the seconds field:
4-digit year, 1-2 digit month/day/hour/minute/second within range, a
valid day of month, literal dashes and colons, the format space matching
one or more whitespace characters.  Returns the parsed value and the
unconsumed remainder of the string. -/
def parseDtBase (l : List Char) : Option (PyDateTime × List Char) :=
  let (ys, r1) := takeDigits l
  if ys.length ≠ 4 then none else
  match r1 with
  | '-' :: r2 =>
    let (ms, r3) := takeDigits r2
    if ms = [] ∨ 2 < ms.length then none else
    let mo := digitsToNat ms
    if mo < 1 ∨ 12 < mo then none else
    match r3 with
    | '-' :: r4 =>
      let (ds, r5) := takeDigits r4
      if ds = [] ∨ 2 < ds.length then none else
      let dy := digitsToNat ds
      let yr := digitsToNat ys
      if dy < 1 ∨ daysInMonth yr mo < dy then none else
      let wsp := r5.takeWhile isPyWs
      let r6 := r5.dropWhile isPyWs
      if wsp = [] then none else
      let (hs, r7) := takeDigits r6
      if hs = [] ∨ 2 < hs.length then none else
      let hr := digitsToNat hs
      if 23 < hr then none else
      match r7 with
      | ':' :: r8 =>
        let (mins, r9) := takeDigits r8
        if mins = [] ∨ 2 < mins.length then none else
        let mi := digitsToNat mins
        if 59 < mi then none else
        match r9 with
        | ':' :: r10 =>
          let (ses, r11) := takeDigits r10
          if ses = [] ∨ 2 < ses.length then none else
          let se := digitsToNat ses
          if 59 < se then none else
          some ({ year := yr, month := mo, day := dy, hour := hr,
                  minute := mi, second := se }, r11)
        | _ => none
      | _ => none
    | _ => none
  | _ => none

/-- strptime(v, %Y-%m-%d %H:%M:%S): the base format consuming the whole
string (the parsed microsecond field is implicitly zero). -/
def parseDtNoFrac (s : String) : Option PyDateTime :=
  match parseDtBase s.data with
  | some (dt, []) => some dt
  | _ => none

/-- strptime(v, %Y-%m-%d %H:%M:%S.%f): the base format, a literal dot,
then 1 to 6 fractional digits right-padded to microseconds, consuming the
whole string. -/
def parseDtWithFrac (s : String) : Option (PyDateTime × Nat) :=
  match parseDtBase s.data with
  | some (dt, '.' :: r) =>
    let (fs, r2) := takeDigits r
    if fs = [] ∨ 6 < fs.length ∨ r2 ≠ [] then none
    else some (dt, digitsToNat fs * 10 ^ (6 - fs.length))
  | _ => none

/- ## Data comparison: the cell-level judgment -/

namespace DataCompare

/-- One mismatch dictionary of compare_dataframes.  Fields absent from a
given entry kind are none. -/
structure Mismatch where
  row : Option Nat
  column : Option String
  issue_type : String
  athena_value : Option String
  sql_value : Option String
  message : String
deriving DecidableEq

def mkRowCountIssue (na ns : Nat) : Mismatch :=
  { row := none, column := none, issue_type := "row_count_mismatch",
    athena_value := none, sql_value := none,
    message := "Row count mismatch (Athena: " ++ toString na ++
      ", SQL Server: " ++ toString ns ++ ")" }

def mkPkMismatch (idx : Nat) (pk av sv : String) : Mismatch :=
  { row := some (idx + 1), column := some pk,
    issue_type := "primary_key_mismatch",
    athena_value := some av, sql_value := some sv,
    message := "Primary key mismatch in row " ++ toString (idx + 1) ++
      ": " ++ pk ++ " (Athena: " ++ av ++ ", SQL Server: " ++ sv ++ ")" }

def mkValueMismatch (ridx : Nat) (col av sv : String) : Mismatch :=
  { row := some (ridx + 1), column := some col,
    issue_type := "value_mismatch",
    athena_value := some av, sql_value := some sv,
    message := "Value mismatch in row " ++ toString (ridx + 1) ++
      ", column " ++ col ++ ": (Athena: " ++ av ++ ", SQL Server: " ++
      sv ++ ")" }

/-- The numeric tolerance test of the cell loop (lines 186-192): both
values parse as numbers and their absolute difference is below 1e-9. -/
def cellNumClose (av sv : String) : Bool :=
  match pyNumCell av, pyNumCell sv with
  | some qa, some qb => |qa - qb| < (1 : ℚ) / 1000000000
  | _, _ => false

/-- The timestamp test of the cell loop (lines 195-201): the Athena value
parses without fractional seconds, the SQL Server value with them, and the
two datetimes are equal. -/
def cellDateEq (av sv : String) : Bool :=
  match parseDtNoFrac av, parseDtWithFrac sv with
  | some d1, some d2 => d1 == d2.1 && d2.2 == 0
  | _, _ => false

/-- The body of the cell loop (lines 179-210) for one cell pair: the
value-mismatch entry produced, if any. -/
def cellMismatchEntry (av sv : String) (ridx : Nat) (col : String) :
    Option Mismatch :=
  if av == sv then none
  else if cellNumClose av sv then none
  else if cellDateEq av sv then none
  else some (mkValueMismatch ridx col av sv)

end DataCompare


/- ## Data comparison: frames and the dataframe diff -/

namespace DataCompare

/-- A fetched sample frame after stringification: the column list and the
rows, each row a column/value association list. -/
structure DataFrame where
  columns : List String
  rows : List (List (String × String))
deriving DecidableEq

/-- df.at[idx, col] for a row: the cell value.  In every reachable state
the column is present, so the default is never read. -/
def rowValue (r : List (String × String)) (col : String) : String :=
  (r.lookup col).getD ""

/-- df.at[idx, col] on a row list. -/
def dfAt (rows : List (List (String × String))) (idx : Nat) (col : String) :
    String :=
  rowValue ((rows.get? idx).getD []) col

/-- The sort key of df.sort_values(primary_keys): the tuple of key-column
values of a row. -/
def pkKeyOf (pks : List String) (r : List (String × String)) : List String :=
  pks.map (fun pk => rowValue r pk)

/-- Lexicographic comparison of two key tuples of equal arity. -/
def lexLe : List String → List String → Bool
  | [], _ => true
  | _ :: _, [] => false
  | x :: xs, y :: ys =>
    if x < y then true else if x == y then lexLe xs ys else false

def insertRowSorted (pks : List String) (r : List (String × String)) :
    List (List (String × String)) → List (List (String × String))
  | [] => [r]
  | x :: xs =>
    if lexLe (pkKeyOf pks r) (pkKeyOf pks x) then r :: x :: xs
    else x :: insertRowSorted pks r xs

/-- df.sort_values(primary_keys).reset_index: the rows ordered by their
key tuples (a stable insertion sort; the source uses the default pandas
sort whose tie order is unspecified). -/
def sortRowsByKeys (pks : List String) :
    List (List (String × String)) → List (List (String × String))
  | [] => []
  | x :: xs => insertRowSorted pks x (sortRowsByKeys pks xs)

/-- `DataComparator.compare_dataframes` (data_compare.py, lines 145-212):
the row-count guard, then the primary-key alignment scan, then the
cell-level loop over the zipped column pairs. -/
def compare_dataframes (athena_df sql_df : DataFrame)
    (athena_cols sql_cols primary_keys : List String) : List Mismatch :=
  if athena_df.rows.length ≠ sql_df.rows.length then
    [mkRowCountIssue athena_df.rows.length sql_df.rows.length]
  else
    let aRows := sortRowsByKeys primary_keys athena_df.rows
    let sRows := sortRowsByKeys primary_keys sql_df.rows
    let pkMismatches := (List.range athena_df.rows.length).bind
      (fun idx => primary_keys.filterMap (fun pk =>
        if dfAt aRows idx pk ≠ dfAt sRows idx pk then
          some (mkPkMismatch idx pk (dfAt aRows idx pk) (dfAt sRows idx pk))
        else none))
    let cellMismatches := (athena_cols.zip sql_cols).bind
      (fun p => (List.range athena_df.rows.length).filterMap (fun ridx =>
        cellMismatchEntry (dfAt aRows ridx p.1) (dfAt sRows ridx p.2)
          ridx p.1))
    pkMismatches ++ cellMismatches

end DataCompare

/-- C7: when the two fetched samples have different row counts, the
comparison returns exactly the single row-count issue; no primary-key or
cell-level entry is produced (the result does not even depend on the
contents of the rows or the column lists). -/
theorem c7_row_count_short_circuit (athena_df sql_df : DataCompare.DataFrame)
    (athena_cols sql_cols primary_keys : List String)
    (h : athena_df.rows.length ≠ sql_df.rows.length) :
    DataCompare.compare_dataframes athena_df sql_df athena_cols sql_cols
        primary_keys =
      [DataCompare.mkRowCountIssue athena_df.rows.length
        sql_df.rows.length] := by
  simp only [DataCompare.compare_dataframes, if_pos h]

/-- C7 witness: one row against zero rows gives exactly the row-count
issue. -/
theorem c7_row_count_short_circuit_witness :
    DataCompare.compare_dataframes
        { columns := ["id"], rows := [[("id", "1")]] }
        { columns := ["id"], rows := [] } ["id"] ["id"] ["id"] =
      [{ row := none, column := none, issue_type := "row_count_mismatch",
         athena_value := none, sql_value := none,
         message := "Row count mismatch (Athena: 1, SQL Server: 0)" }] := by
  rw [c7_row_count_short_circuit _ _ ["id"] ["id"] ["id"] (by decide)]
  decide

/-- C10: two differing normalized cell strings are judged equal (no
value-mismatch entry) whenever both parse as numbers whose absolute
difference is below 1e-9, or both parse as timestamps (the relational side
with a fractional-seconds suffix) denoting the same instant. -/
theorem c10_cell_tolerance_judged_equal (av sv : String) (hne : av ≠ sv)
    (h : (∃ qa qb, pyNumCell av = some qa ∧ pyNumCell sv = some qb ∧
            |qa - qb| < (1 : ℚ) / 1000000000) ∨
         (∃ dt, parseDtNoFrac av = some dt ∧
            parseDtWithFrac sv = some (dt, 0))) :
    ∀ ridx col, DataCompare.cellMismatchEntry av sv ridx col = none := by
  intro ridx col
  have hb : (av == sv) = false := beq_eq_false_iff_ne.mpr hne
  rcases h with ⟨qa, qb, h1, h2, h3⟩ | ⟨dt, h1, h2⟩
  · have hnc : DataCompare.cellNumClose av sv = true := by
      simp only [DataCompare.cellNumClose, h1, h2]
      exact decide_eq_true h3
    simp [DataCompare.cellMismatchEntry, hb, hnc]
  · have hde : DataCompare.cellDateEq av sv = true := by
      simp [DataCompare.cellDateEq, h1, h2]
    cases hnc : DataCompare.cellNumClose av sv <;>
      simp [DataCompare.cellMismatchEntry, hb, hnc, hde]

end UTA

namespace UTA

/-- C10 witness: the integer cells 3 and +3 differ as strings yet are
judged numerically equal, and a timestamp against the same timestamp
carrying a zero fractional-seconds suffix is judged equal. -/
theorem c10_cell_tolerance_judged_equal_witness :
    DataCompare.cellMismatchEntry "3" "+3" 0 "qty" = none ∧
    DataCompare.cellMismatchEntry "2024-02-29 10:05:07"
      "2024-02-29 10:05:07.000" 1 "ts" = none := by
  constructor
  · exact c10_cell_tolerance_judged_equal "3" "+3" (by decide)
      (Or.inl ⟨3, 3, rfl, rfl, by norm_num⟩) 0 "qty"
  · exact c10_cell_tolerance_judged_equal "2024-02-29 10:05:07"
      "2024-02-29 10:05:07.000" (by decide)
      (Or.inr ⟨{ year := 2024, month := 2, day := 29, hour := 10,
                 minute := 5, second := 7 }, by decide, by decide⟩) 1 "ts"


/- ## compare_data (data_compare.py, lines 214-353) -/

namespace DataCompare

/-- One per-table result of compare_data. -/
structure DataTableResult where
  table_id : String
  athena_name : String
  sql_name : String
  primary_keys : List String
  excluded_columns : List String
  status : String
  issues : List String
  mismatches : List Mismatch
  row_counts_athena : Nat
  row_counts_sql : Nat
  columns_compared : List String
deriving DecidableEq

/-- `DataComparator._validate_primary_keys` (lines 135-143).  The frames of
the model hold stringified cells, never the pandas NaN, so only the
missing-column branch can fire. -/
def validatePrimaryKeys (df : DataFrame) (primary_keys : List String)
    (source : String) : List String :=
  primary_keys.filterMap (fun pk =>
    if ¬ df.columns.contains pk then
      some ("Primary key " ++ pk ++ " not found in " ++ source ++ " data")
    else none)

/-- The column rows of the mapped Athena table. -/
def dataAthenaColsOf (athena_df : List AthenaColRow)
    (m : String × TableConfig) : List AthenaColRow :=
  athena_df.filter
    (fun r => r.normalized_table_name == normalize_name m.1)

/-- The column rows of the mapped SQL Server table (the compare_data loop
reads the SQL catalog through the same fields as the Athena one). -/
def dataSqlColsOf (sql_df : List AthenaColRow)
    (m : String × TableConfig) : List AthenaColRow :=
  sql_df.filter
    (fun r => r.normalized_table_name == normalize_name m.2.sql_table)

/-- common_cols (line 271): shared canonical names minus the normalized
exclusions.  Set iteration is modelled by the deduplicated lists. -/
def dataCommonColsOf (athena_df sql_df : List AthenaColRow)
    (m : String × TableConfig) : List String :=
  (((dataAthenaColsOf athena_df m).map (fun r => r.normalized_name)).dedup.filter
    (fun c => ((dataSqlColsOf sql_df m).map
      (fun r => r.normalized_name)).dedup.contains c)).filter
    (fun c => !((m.2.exclude_columns.map normalize_name).dedup.contains c))

/-- The selected source-native column-name pairs (lines 285-299): for each
common canonical name, the first Athena and SQL rows carrying it.  The
lookups cannot fail because the names come from those same rows, and the
seen-set of the source cannot trigger on the deduplicated iteration
order. -/
def dataSelectedOf (athena_df sql_df : List AthenaColRow)
    (m : String × TableConfig) : List (String × String) :=
  (dataCommonColsOf athena_df sql_df m).filterMap (fun norm_col =>
    match (dataAthenaColsOf athena_df m).find?
            (fun r => r.normalized_name == norm_col),
          (dataSqlColsOf sql_df m).find?
            (fun r => r.normalized_name == norm_col) with
    | some a, some srow => some (a.column_name, srow.column_name)
    | _, _ => none)

/-- The normalized primary keys (line 280). -/
def dataNormPksOf (m : String × TableConfig) : List String :=
  m.2.primary_keys.map normalize_name

/-- The duplicate-primary-key issue (line 283): the f-string renders the
Python list of duplicated keys (repr form, single-quoted elements) in
first-occurrence order. -/
def mkDupPkIssue (norm_pks : List String) : String :=
  "Duplicate primary keys: [" ++
    String.intercalate ", "
      ((norm_pks.dedup.filter (fun k => 1 < norm_pks.count k)).map
        (fun k => "\x27" ++ k ++ "\x27")) ++ "]"

/-- The per-mapping body of the compare_data loop (lines 230-344): the
chain of validations, the two sample fetches, the primary-key validation
and the frame diff, each failure caught as that table's error status with
str(e) as the single issue.  Returns the entry and whether the table
counts as valid. -/
def dataStep
    (fetchA fetchS : String → List String → List String → Nat →
      Except String DataFrame)
    (athena_df sql_df : List AthenaColRow) (sample_size : Nat)
    (m : String × TableConfig) : DataTableResult × Bool :=
  let base : DataTableResult :=
    { table_id := normalize_name m.1, athena_name := m.1,
      sql_name := m.2.sql_table, primary_keys := m.2.primary_keys,
      excluded_columns := m.2.exclude_columns, status := "pending",
      issues := [], mismatches := [], row_counts_athena := 0,
      row_counts_sql := 0, columns_compared := [] }
  if ¬ athena_df.any
      (fun r => r.normalized_table_name == normalize_name m.1) then
    ({ base with
       status := "error",
       issues := ["Table not found in Athena: " ++ m.1] }, false)
  else if ¬ sql_df.any
      (fun r => r.normalized_table_name == normalize_name m.2.sql_table) then
    ({ base with
       status := "error",
       issues := ["Table not found in SQL Server: " ++ m.2.sql_table] }, false)
  else if dataCommonColsOf athena_df sql_df m = [] then
    ({ base with
       status := "error",
       issues := ["No common columns after exclusions"] }, false)
  else if m.2.primary_keys = [] then
    ({ base with
       status := "error",
       issues := ["No primary keys specified"] }, false)
  else if (dataNormPksOf m).dedup.length ≠ (dataNormPksOf m).length then
    ({ base with
       status := "error",
       issues := [mkDupPkIssue (dataNormPksOf m)] }, false)
  else
    match fetchA m.1
        (m.2.primary_keys ++
          (dataSelectedOf athena_df sql_df m).map (fun p => p.1))
        m.2.primary_keys sample_size with
    | .error e => ({ base with status := "error", issues := [e] }, false)
    | .ok athena_data =>
      match fetchS m.2.sql_table
          (m.2.primary_keys ++
            (dataSelectedOf athena_df sql_df m).map (fun p => p.2))
          m.2.primary_keys sample_size with
      | .error e => ({ base with status := "error", issues := [e] }, false)
      | .ok sql_data =>
        let withCounts :=
          { base with
            row_counts_athena := athena_data.rows.length,
            row_counts_sql := sql_data.rows.length,
            columns_compared :=
              (dataSelectedOf athena_df sql_df m).map
                (fun p : String × String => p.1) }
        let pk_issues :=
          validatePrimaryKeys athena_data m.2.primary_keys "Athena" ++
          validatePrimaryKeys sql_data m.2.primary_keys "SQL Server"
        if pk_issues ≠ [] then
          ({ withCounts with
           status := "error",
             issues := [String.intercalate "\n" pk_issues] }, false)
        else
          let mismatches := compare_dataframes athena_data sql_data
            ((dataSelectedOf athena_df sql_df m).map (fun p => p.1))
            ((dataSelectedOf athena_df sql_df m).map (fun p => p.2))
            m.2.primary_keys
          if mismatches ≠ [] then
            ({ withCounts with
               mismatches := mismatches,
               status := "mismatch",
               issues := ["Found " ++ toString mismatches.length ++
                 " mismatches"] }, false)
          else ({ withCounts with status := "match" }, true)

/-- The run-level result of compare_data. -/
structure DataRunResults where
  sample_size : Nat
  total_tables : Nat
  valid_tables : Nat
  error_tables : Nat
  tables : List DataTableResult
  total_mismatches : Nat
deriving DecidableEq

/-- `DataComparator.compare_data` (lines 214-353): the per-mapping loop
and the run-level record, with the two column catalogs and the two sample
fetches passed as parameters at the I/O boundary.  The shipped module can
never reach this loop: line 45 dedents get_athena_data to module level, so
importing data_compare.py raises IndentationError at line 91, and line 228
calls get_sqlserver_columns without its required target_tables argument,
an uncaught TypeError ahead of the loop.  This definition models the loop
those lines intend to run.  The wall-clock timestamp and the float-rounded
match percentage and top-5 summary of the source are outside the model;
the summary total of mismatches is kept. -/
def compare_data
    (fetchA fetchS : String → List String → List String → Nat →
      Except String DataFrame)
    (athena_df sql_df : List AthenaColRow)
    (mappings : List (String × TableConfig)) (sample_size : Nat) :
    DataRunResults :=
  let core := runFold (dataStep fetchA fetchS athena_df sql_df sample_size)
    mappings
  { sample_size := sample_size, total_tables := core.total_tables,
    valid_tables := core.valid_tables, error_tables := core.error_tables,
    tables := core.tables,
    total_mismatches := (core.tables.map (fun t => t.mismatches.length)).sum }

end DataCompare


/- ## C9: each run partitions its mappings -/

/-- C9: every check loop (schema, count, duplicates, nulls, data) returns
exactly one table entry per input mapping, reports that number as
total_tables, and splits it exactly between valid_tables and
error_tables.  For the data check this is the invariant of the loop of
lines 230-344, which the shipped module can never reach (see the comment
on DataCompare.compare_data): there the code, not the invariant, is at
fault. -/
theorem c9_result_partition_invariant :
    (∀ (athena_df : List AthenaColRow) (sql_df : List SqlColRow)
       (mappings : List (String × TableConfig)),
      (SchemaCompare.compare_schemas athena_df sql_df mappings).tables.length
          = mappings.length ∧
      (SchemaCompare.compare_schemas athena_df sql_df mappings).total_tables
          = mappings.length ∧
      (SchemaCompare.compare_schemas athena_df sql_df mappings).valid_tables +
        (SchemaCompare.compare_schemas athena_df sql_df mappings).error_tables
          = mappings.length) ∧
    (∀ (fetchA fetchS : String → Except String Int)
       (mappings : List (String × TableConfig)),
      (CountCheck.check_counts fetchA fetchS mappings).tables.length
          = mappings.length ∧
      (CountCheck.check_counts fetchA fetchS mappings).total_tables
          = mappings.length ∧
      (CountCheck.check_counts fetchA fetchS mappings).valid_tables +
        (CountCheck.check_counts fetchA fetchS mappings).error_tables
          = mappings.length) ∧
    (∀ (fetchA fetchS : String → List String →
        Except String (List DupCheck.DupRow))
       (mappings : List (String × TableConfig)),
      (DupCheck.check_duplicates fetchA fetchS mappings).tables.length
          = mappings.length ∧
      (DupCheck.check_duplicates fetchA fetchS mappings).total_tables
          = mappings.length ∧
      (DupCheck.check_duplicates fetchA fetchS mappings).valid_tables +
        (DupCheck.check_duplicates fetchA fetchS mappings).error_tables
          = mappings.length) ∧
    (∀ (fetchA fetchS : String → List String →
        Except String NullCheck.NullCounts)
       (mappings : List (String × TableConfig)),
      (NullCheck.check_nulls fetchA fetchS mappings).tables.length
          = mappings.length ∧
      (NullCheck.check_nulls fetchA fetchS mappings).total_tables
          = mappings.length ∧
      (NullCheck.check_nulls fetchA fetchS mappings).valid_tables +
        (NullCheck.check_nulls fetchA fetchS mappings).error_tables
          = mappings.length) ∧
    (∀ (fetchA fetchS : String → List String → List String → Nat →
        Except String DataCompare.DataFrame)
       (athena_df sql_df : List AthenaColRow)
       (mappings : List (String × TableConfig)) (sample_size : Nat),
      (DataCompare.compare_data fetchA fetchS athena_df sql_df mappings
          sample_size).tables.length = mappings.length ∧
      (DataCompare.compare_data fetchA fetchS athena_df sql_df mappings
          sample_size).total_tables = mappings.length ∧
      (DataCompare.compare_data fetchA fetchS athena_df sql_df mappings
          sample_size).valid_tables +
        (DataCompare.compare_data fetchA fetchS athena_df sql_df mappings
          sample_size).error_tables = mappings.length) := by
  refine ⟨?_, ?_, ?_, ?_, ?_⟩
  · intro athena_df sql_df mappings
    obtain ⟨h1, h2, h3⟩ := runFold_invariant
      (fun m => SchemaCompare.compareTable athena_df sql_df m.1 m.2) mappings
    exact ⟨h1, h3, h2⟩
  · intro fetchA fetchS mappings
    obtain ⟨h1, h2, h3⟩ := runFold_invariant
      (CountCheck.countStep fetchA fetchS) mappings
    exact ⟨h1, h3, h2⟩
  · intro fetchA fetchS mappings
    obtain ⟨h1, h2, h3⟩ := runFold_invariant
      (DupCheck.dupStep fetchA fetchS) mappings
    exact ⟨h1, h3, h2⟩
  · intro fetchA fetchS mappings
    obtain ⟨h1, h2, h3⟩ := runFold_invariant
      (NullCheck.nullStep fetchA fetchS) mappings
    exact ⟨h1, h3, h2⟩
  · intro fetchA fetchS athena_df sql_df mappings sample_size
    obtain ⟨h1, h2, h3⟩ := runFold_invariant
      (DataCompare.dataStep fetchA fetchS athena_df sql_df sample_size)
      mappings
    exact ⟨h1, h3, h2⟩

/- ## C8: a failing fetch degrades only its own table -/

/-- C8: for every check kind (count, duplicates, nulls, data) and either
underlying fetch (Athena side or SQL Server side), a fetch failure does
not abort the run: the affected table entry is flagged as an error
carrying the exception message in its issues, it is counted as an error
table (the step returns false), and every loop still yields one entry per
mapping. -/
theorem c8_fetch_failure_degrades_to_error :
    (∀ (fetchA fetchS : String → Except String Int) (name : String)
       (cfg : TableConfig) (msg : String),
      fetchA name = Except.error msg →
        (CountCheck.countStep fetchA fetchS (name, cfg)).1.has_issues = true ∧
        msg ∈ (CountCheck.countStep fetchA fetchS (name, cfg)).1.issues ∧
        (CountCheck.countStep fetchA fetchS (name, cfg)).2 = false) ∧
    (∀ (fetchA fetchS : String → Except String Int) (name : String)
       (cfg : TableConfig) (a : Int) (msg : String),
      fetchA name = Except.ok a → fetchS cfg.sql_table = Except.error msg →
        (CountCheck.countStep fetchA fetchS (name, cfg)).1.has_issues = true ∧
        msg ∈ (CountCheck.countStep fetchA fetchS (name, cfg)).1.issues ∧
        (CountCheck.countStep fetchA fetchS (name, cfg)).2 = false) ∧
    (∀ (fetchA fetchS : String → List String →
        Except String (List DupCheck.DupRow))
       (name : String) (cfg : TableConfig) (msg : String),
      cfg.primary_keys ≠ [] →
      fetchA name cfg.primary_keys = Except.error msg →
        (DupCheck.dupStep fetchA fetchS (name, cfg)).1.has_issues = true ∧
        msg ∈ (DupCheck.dupStep fetchA fetchS (name, cfg)).1.issues ∧
        (DupCheck.dupStep fetchA fetchS (name, cfg)).2 = false) ∧
    (∀ (fetchA fetchS : String → List String →
        Except String (List DupCheck.DupRow))
       (name : String) (cfg : TableConfig)
       (dupes : List DupCheck.DupRow) (msg : String),
      cfg.primary_keys ≠ [] →
      fetchA name cfg.primary_keys = Except.ok dupes →
      fetchS cfg.sql_table cfg.primary_keys = Except.error msg →
        (DupCheck.dupStep fetchA fetchS (name, cfg)).1.has_issues = true ∧
        msg ∈ (DupCheck.dupStep fetchA fetchS (name, cfg)).1.issues ∧
        (DupCheck.dupStep fetchA fetchS (name, cfg)).2 = false) ∧
    (∀ (fetchA fetchS : String → List String →
        Except String NullCheck.NullCounts)
       (name : String) (cfg : TableConfig) (msg : String),
      cfg.primary_keys ≠ [] →
      fetchA name cfg.primary_keys = Except.error msg →
        (NullCheck.nullStep fetchA fetchS (name, cfg)).1.has_issues = true ∧
        msg ∈ (NullCheck.nullStep fetchA fetchS (name, cfg)).1.issues ∧
        (NullCheck.nullStep fetchA fetchS (name, cfg)).2 = false) ∧
    (∀ (fetchA fetchS : String → List String →
        Except String NullCheck.NullCounts)
       (name : String) (cfg : TableConfig)
       (counts : NullCheck.NullCounts) (msg : String),
      cfg.primary_keys ≠ [] →
      fetchA name cfg.primary_keys = Except.ok counts →
      fetchS cfg.sql_table cfg.primary_keys = Except.error msg →
        (NullCheck.nullStep fetchA fetchS (name, cfg)).1.has_issues = true ∧
        msg ∈ (NullCheck.nullStep fetchA fetchS (name, cfg)).1.issues ∧
        (NullCheck.nullStep fetchA fetchS (name, cfg)).2 = false) ∧
    (∀ (fetchA fetchS : String → List String → List String → Nat →
        Except String DataCompare.DataFrame)
       (athena_df sql_df : List AthenaColRow) (sample_size : Nat)
       (name : String) (cfg : TableConfig) (msg : String),
      (athena_df.any (fun r => r.normalized_table_name ==
        DataCompare.normalize_name name)) = true →
      (sql_df.any (fun r => r.normalized_table_name ==
        DataCompare.normalize_name cfg.sql_table)) = true →
      DataCompare.dataCommonColsOf athena_df sql_df (name, cfg) ≠ [] →
      cfg.primary_keys ≠ [] →
      (DataCompare.dataNormPksOf (name, cfg)).dedup.length =
        (DataCompare.dataNormPksOf (name, cfg)).length →
      fetchA name
        (cfg.primary_keys ++
          (DataCompare.dataSelectedOf athena_df sql_df (name, cfg)).map
            (fun p => p.1)) cfg.primary_keys sample_size =
        Except.error msg →
        (DataCompare.dataStep fetchA fetchS athena_df sql_df sample_size
          (name, cfg)).1.status = "error" ∧
        (DataCompare.dataStep fetchA fetchS athena_df sql_df sample_size
          (name, cfg)).1.issues = [msg] ∧
        (DataCompare.dataStep fetchA fetchS athena_df sql_df sample_size
          (name, cfg)).2 = false) ∧
    (∀ (fetchA fetchS : String → List String → List String → Nat →
        Except String DataCompare.DataFrame)
       (athena_df sql_df : List AthenaColRow) (sample_size : Nat)
       (name : String) (cfg : TableConfig)
       (frame : DataCompare.DataFrame) (msg : String),
      (athena_df.any (fun r => r.normalized_table_name ==
        DataCompare.normalize_name name)) = true →
      (sql_df.any (fun r => r.normalized_table_name ==
        DataCompare.normalize_name cfg.sql_table)) = true →
      DataCompare.dataCommonColsOf athena_df sql_df (name, cfg) ≠ [] →
      cfg.primary_keys ≠ [] →
      (DataCompare.dataNormPksOf (name, cfg)).dedup.length =
        (DataCompare.dataNormPksOf (name, cfg)).length →
      fetchA name
        (cfg.primary_keys ++
          (DataCompare.dataSelectedOf athena_df sql_df (name, cfg)).map
            (fun p => p.1)) cfg.primary_keys sample_size =
        Except.ok frame →
      fetchS cfg.sql_table
        (cfg.primary_keys ++
          (DataCompare.dataSelectedOf athena_df sql_df (name, cfg)).map
            (fun p => p.2)) cfg.primary_keys sample_size =
        Except.error msg →
        (DataCompare.dataStep fetchA fetchS athena_df sql_df sample_size
          (name, cfg)).1.status = "error" ∧
        (DataCompare.dataStep fetchA fetchS athena_df sql_df sample_size
          (name, cfg)).1.issues = [msg] ∧
        (DataCompare.dataStep fetchA fetchS athena_df sql_df sample_size
          (name, cfg)).2 = false) ∧
    (∀ (fetchA fetchS : String → Except String Int)
       (mappings : List (String × TableConfig)),
      (CountCheck.check_counts fetchA fetchS mappings).tables.length
        = mappings.length) ∧
    (∀ (fetchA fetchS : String → List String →
        Except String (List DupCheck.DupRow))
       (mappings : List (String × TableConfig)),
      (DupCheck.check_duplicates fetchA fetchS mappings).tables.length
        = mappings.length) ∧
    (∀ (fetchA fetchS : String → List String →
        Except String NullCheck.NullCounts)
       (mappings : List (String × TableConfig)),
      (NullCheck.check_nulls fetchA fetchS mappings).tables.length
        = mappings.length) ∧
    (∀ (fetchA fetchS : String → List String → List String → Nat →
        Except String DataCompare.DataFrame)
       (athena_df sql_df : List AthenaColRow)
       (mappings : List (String × TableConfig)) (sample_size : Nat),
      (DataCompare.compare_data fetchA fetchS athena_df sql_df mappings
        sample_size).tables.length = mappings.length) := by
  refine ⟨?_, ?_, ?_, ?_, ?_, ?_, ?_, ?_, ?_, ?_, ?_, ?_⟩
  · intro fetchA fetchS name cfg msg hfa
    simp [CountCheck.countStep, hfa]
  · intro fetchA fetchS name cfg a msg hfa hfs
    simp [CountCheck.countStep, hfa, hfs]
  · intro fetchA fetchS name cfg msg hpk hfa
    simp [DupCheck.dupStep, hpk, hfa]
  · intro fetchA fetchS name cfg dupes msg hpk hfa hfs
    simp [DupCheck.dupStep, hpk, hfa, hfs]
  · intro fetchA fetchS name cfg msg hpk hfa
    simp [NullCheck.nullStep, hpk, hfa]
  · intro fetchA fetchS name cfg counts msg hpk hfa hfs
    simp [NullCheck.nullStep, hpk, hfa, hfs]
  · intro fetchA fetchS athena_df sql_df sample_size name cfg msg
      h1 h2 h3 h4 h5 hfa
    simp [DataCompare.dataStep, h1, h2, h3, h4, h5, hfa]
  · intro fetchA fetchS athena_df sql_df sample_size name cfg frame msg
      h1 h2 h3 h4 h5 hfa hfs
    simp [DataCompare.dataStep, h1, h2, h3, h4, h5, hfa, hfs]
  · intro fetchA fetchS mappings
    exact (runFold_invariant (CountCheck.countStep fetchA fetchS) mappings).1
  · intro fetchA fetchS mappings
    exact (runFold_invariant (DupCheck.dupStep fetchA fetchS) mappings).1
  · intro fetchA fetchS mappings
    exact (runFold_invariant (NullCheck.nullStep fetchA fetchS) mappings).1
  · intro fetchA fetchS athena_df sql_df mappings sample_size
    exact (runFold_invariant
      (DataCompare.dataStep fetchA fetchS athena_df sql_df sample_size)
      mappings).1

/-- A one-table catalog for the C8 witness. -/
def c8AthenaFixture : List AthenaColRow :=
  [{ original_name := "t", column_name := "id", data_type := "integer",
     normalized_table_name := "t", normalized_name := "id" }]

/-- C8 witness: each check applied at a concrete failing fetch, on the
Athena side and on the SQL Server side. -/
theorem c8_fetch_failure_degrades_to_error_witness :
    ((CountCheck.countStep (fun _ => Except.error "athena down")
       (fun _ => Except.ok 0) ("t", { sql_table := "s" })).1.has_issues
         = true ∧
     "athena down" ∈ (CountCheck.countStep (fun _ => Except.error "athena down")
       (fun _ => Except.ok 0) ("t", { sql_table := "s" })).1.issues) ∧
    ("sql down" ∈ (CountCheck.countStep (fun _ => Except.ok 0)
       (fun _ => Except.error "sql down") ("t", { sql_table := "s" })).1.issues) ∧
    ((DupCheck.dupStep (fun _ _ => Except.error "conn refused")
       (fun _ _ => Except.ok [])
       ("t", { sql_table := "s", primary_keys := ["id"] })).1.has_issues
         = true ∧
     "conn refused" ∈ (DupCheck.dupStep (fun _ _ => Except.error "conn refused")
       (fun _ _ => Except.ok [])
       ("t", { sql_table := "s", primary_keys := ["id"] })).1.issues) ∧
    ("auth failed" ∈ (DupCheck.dupStep (fun _ _ => Except.ok [])
       (fun _ _ => Except.error "auth failed")
       ("t", { sql_table := "s", primary_keys := ["id"] })).1.issues) ∧
    ((NullCheck.nullStep (fun _ _ => Except.error "timeout")
       (fun _ _ => Except.ok [])
       ("t", { sql_table := "s", primary_keys := ["id"] })).1.has_issues
         = true ∧
     "timeout" ∈ (NullCheck.nullStep (fun _ _ => Except.error "timeout")
       (fun _ _ => Except.ok [])
       ("t", { sql_table := "s", primary_keys := ["id"] })).1.issues) ∧
    ("dns failure" ∈ (NullCheck.nullStep (fun _ _ => Except.ok [])
       (fun _ _ => Except.error "dns failure")
       ("t", { sql_table := "s", primary_keys := ["id"] })).1.issues) ∧
    ((DataCompare.dataStep (fun _ _ _ _ => Except.error "socket closed")
       (fun _ _ _ _ => Except.ok { columns := [], rows := [] })
       c8AthenaFixture c8AthenaFixture 100
       ("t", { sql_table := "t", primary_keys := ["id"] })).1.status
         = "error" ∧
     (DataCompare.dataStep (fun _ _ _ _ => Except.error "socket closed")
       (fun _ _ _ _ => Except.ok { columns := [], rows := [] })
       c8AthenaFixture c8AthenaFixture 100
       ("t", { sql_table := "t", primary_keys := ["id"] })).1.issues
         = ["socket closed"]) ∧
    ((DataCompare.dataStep
       (fun _ _ _ _ => Except.ok { columns := ["id"], rows := [] })
       (fun _ _ _ _ => Except.error "tls error")
       c8AthenaFixture c8AthenaFixture 100
       ("t", { sql_table := "t", primary_keys := ["id"] })).1.status
         = "error" ∧
     (DataCompare.dataStep
       (fun _ _ _ _ => Except.ok { columns := ["id"], rows := [] })
       (fun _ _ _ _ => Except.error "tls error")
       c8AthenaFixture c8AthenaFixture 100
       ("t", { sql_table := "t", primary_keys := ["id"] })).1.issues
         = ["tls error"]) := by
  have h := c8_fetch_failure_degrades_to_error
  refine ⟨?_, ?_, ?_, ?_, ?_, ?_, ?_, ?_⟩
  · have h1 := h.1 (fun _ => Except.error "athena down") (fun _ => Except.ok 0)
      "t" { sql_table := "s" } "athena down" rfl
    exact ⟨h1.1, h1.2.1⟩
  · exact (h.2.1 (fun _ => Except.ok 0) (fun _ => Except.error "sql down")
      "t" { sql_table := "s" } 0 "sql down" rfl rfl).2.1
  · have h2 := h.2.2.1 (fun _ _ => Except.error "conn refused")
      (fun _ _ => Except.ok [])
      "t" { sql_table := "s", primary_keys := ["id"] } "conn refused"
      (by decide) rfl
    exact ⟨h2.1, h2.2.1⟩
  · exact (h.2.2.2.1 (fun _ _ => Except.ok [])
      (fun _ _ => Except.error "auth failed")
      "t" { sql_table := "s", primary_keys := ["id"] } [] "auth failed"
      (by decide) rfl rfl).2.1
  · have h3 := h.2.2.2.2.1 (fun _ _ => Except.error "timeout")
      (fun _ _ => Except.ok [])
      "t" { sql_table := "s", primary_keys := ["id"] } "timeout"
      (by decide) rfl
    exact ⟨h3.1, h3.2.1⟩
  · exact (h.2.2.2.2.2.1 (fun _ _ => Except.ok [])
      (fun _ _ => Except.error "dns failure")
      "t" { sql_table := "s", primary_keys := ["id"] } [] "dns failure"
      (by decide) rfl rfl).2.1
  · have h4 := h.2.2.2.2.2.2.1 (fun _ _ _ _ => Except.error "socket closed")
      (fun _ _ _ _ => Except.ok { columns := [], rows := [] })
      c8AthenaFixture c8AthenaFixture 100 "t"
      { sql_table := "t", primary_keys := ["id"] } "socket closed"
      (by decide) (by decide) (by decide) (by decide) (by decide) rfl
    exact ⟨h4.1, h4.2.1⟩
  · have h5 := h.2.2.2.2.2.2.2.1
      (fun _ _ _ _ => Except.ok { columns := ["id"], rows := [] })
      (fun _ _ _ _ => Except.error "tls error")
      c8AthenaFixture c8AthenaFixture 100 "t"
      { sql_table := "t", primary_keys := ["id"] }
      { columns := ["id"], rows := [] } "tls error"
      (by decide) (by decide) (by decide) (by decide) (by decide) rfl rfl
    exact ⟨h5.1, h5.2.1⟩

end UTA
